import Mathlib

/-!
A shallow embedding of the widget-setup-server repository
(`widget_setup_server.py`, `prompt_tool.py`) and proofs about its two
operations, `initialize_repo` and `get_prompt`.

The filesystem and process environment are modelled explicitly: a state
record carries the regular files (with contents; `none` content marks a
file whose read raises), the directories, the current working directory
and the user's home directory, together with fault flags that decide
whether a directory creation (`os.makedirs`) or a file write (`open` +
`write`) raises.  Subprocess outcomes (git clone, npm install) are an
explicit environment record.  The two f-string prompt templates are
embedded as segment lists: literal text, interpolation holes, and —
in `widget_setup_server.py` only — replacement fields whose format
specification is invalid for `str` (the JSON example blocks there use
unescaped literal braces), which raise `ValueError` when the f-string is
evaluated; this behaviour of CPython was checked experimentally against
the exact brace patterns of the source.
-/

namespace WidgetSetup

/-- `os.path.basename` for POSIX paths: the component after the last slash. -/
def basename (p : String) : String :=
  String.mk ((p.data.reverse.takeWhile (fun c => c != '/')).reverse)

/-- Remove trailing slash characters from a character list. -/
def dropTrailingSlashes (cs : List Char) : List Char :=
  (cs.reverse.dropWhile (fun c => c = '/')).reverse

/-- `os.path.dirname` for POSIX paths: everything up to the final slash, with
trailing slashes stripped unless the head consists only of slashes. -/
def dirname (p : String) : String :=
  let cs := p.data
  match cs.reverse.findIdx? (fun c => c = '/') with
  | none => ""
  | some k =>
    let head := cs.take (cs.length - k)
    if head.all (fun c => c = '/') then String.mk head
    else String.mk (dropTrailingSlashes head)

/-- Whether a path starts with a slash. -/
def startsWithSlash (s : String) : Bool :=
  match s.data with
  | [] => false
  | c :: _ => c = '/'

/-- Whether a path ends with a slash. -/
def endsWithSlash (s : String) : Bool :=
  match s.data.getLast? with
  | some c => c = '/'
  | none => false

/-- `os.path.join` for two POSIX path components. -/
def joinPath (a b : String) : String :=
  if startsWithSlash b then b
  else if a = "" || endsWithSlash a then a ++ b
  else a ++ "/" ++ b

/-- The modelled filesystem and process state.  `files` maps a path to
`some content` for a readable regular file and to `none` for a regular file
whose read raises.  `mkdirFails` / `writeFails` decide whether
`os.makedirs` / a file write raises an `OSError` in this state. -/
structure FS where
  files : List (String × Option String)
  dirs : List String
  cwd : String
  home : String
  mkdirFails : Bool
  writeFails : Bool
deriving DecidableEq

/-- Look a path up among the regular files. -/
def lookupFile (fs : FS) (p : String) : Option (Option String) :=
  fs.files.lookup p

/-- `os.path.isfile`. -/
def isfile (fs : FS) (p : String) : Bool :=
  (lookupFile fs p).isSome

/-- `os.path.exists` (a regular file or a directory). -/
def pathExists (fs : FS) (p : String) : Bool :=
  (lookupFile fs p).isSome || fs.dirs.contains p

/-- Read a regular file; `none` when the path is not a readable file. -/
def readContent (fs : FS) (p : String) : Option String :=
  (lookupFile fs p).bind id

/-- The bytes of a modelled file content (one byte per character code). -/
def bytesOfString (s : String) : List Nat :=
  s.data.map Char.toNat

/-- `open(p, "w"); write(c)`: truncate and replace the file at `p`. -/
def writeFileFS (fs : FS) (p c : String) : FS :=
  { fs with files := (p, some c) :: fs.files }

/-- `os.makedirs(p, exist_ok=True)` (ancestors abstracted away). -/
def mkdirFS (fs : FS) (p : String) : FS :=
  { fs with dirs := p :: fs.dirs }

/-- `os.chdir p`. -/
def chdirFS (fs : FS) (p : String) : FS :=
  { fs with cwd := p }

/-- The base64 alphabet of RFC 4648, as used by `base64.b64encode`. -/
def b64Alphabet : List Char :=
  "ABCDEFGHIJKLMNOPQRSTUVWXYZabcdefghijklmnopqrstuvwxyz0123456789+/".data

/-- The base64 digit for a 6-bit value. -/
def b64Char (n : Nat) : Char :=
  b64Alphabet.getD n '?'

/-- `base64.b64encode` on a byte list, with `=` padding. -/
def base64Encode : List Nat → String
  | [] => ""
  | [b1] =>
    String.mk [b64Char (b1 / 4), b64Char (b1 % 4 * 16), '=', '=']
  | [b1, b2] =>
    String.mk [b64Char (b1 / 4), b64Char (b1 % 4 * 16 + b2 / 16), b64Char (b2 % 16 * 4), '=']
  | b1 :: b2 :: b3 :: rest =>
    String.mk [b64Char (b1 / 4), b64Char (b1 % 4 * 16 + b2 / 16),
               b64Char (b2 % 16 * 4 + b3 / 64), b64Char (b3 % 64)] ++ base64Encode rest

/-- The outcome of a `get_prompt` call: the success dictionary, the error
dictionary that still carries the composed prompt, the plain error
dictionary, or an uncaught exception propagating to the caller. -/
inductive PromptResult where
  | ok (message : String) (prompt : String)
  | errorWithPrompt (message : String) (prompt : String)
  | error (message : String)
  | raised (exc : String)
deriving DecidableEq

/-- Whether the result is the success dictionary. -/
def PromptResult.isOk : PromptResult → Bool
  | .ok _ _ => true
  | _ => false

/-- Whether the result is an uncaught exception. -/
def PromptResult.isRaised : PromptResult → Bool
  | .raised _ => true
  | _ => false

/-- The `prompt` field of the returned dictionary, when present. -/
def PromptResult.promptText : PromptResult → Option String
  | .ok _ p => some p
  | .errorWithPrompt _ p => some p
  | _ => none

/-- The caller-supplied arguments of `get_prompt`.  `""` stands for an
omitted optional string (Python treats `None` and `""` alike here via
truthiness); the two list parameters keep their `None` default distinct
from an explicit empty list. -/
structure PromptArgs where
  widgetIntention : String
  projectName : String := ""
  fileName : String := ""
  fileMakerPath : String := ""
  scriptName : String := ""
  techStack : Option (List Int) := none
  useTypeScript : Bool := false
  stateLibrary : String := ""
  stylePaths : Option (List String) := none
deriving DecidableEq

/-- The fully defaulted field set interpolated into a prompt template. -/
structure Resolved where
  projectName : String
  widgetIntention : String
  fileName : String
  fileMakerPath : String
  scriptName : String
  stateLibrary : String
  tsStatus : String
  techNames : List String
  processedStyles : List String

/-- The interpolation holes occurring in the two templates. -/
inductive Hole where
  | projectName
  | widgetIntention
  | fileName
  | fileMakerPath
  | scriptName
  | styles
  | techNames
  | tsStatus
  | stateLib
deriving DecidableEq

/-- One segment of an f-string template: literal text, a valid
interpolation hole, or a replacement field whose format specification is
invalid for `str` (raising `ValueError` when evaluated). -/
inductive FSeg where
  | lit (s : String)
  | hole (h : Hole)
  | bad (raw : String)

/-- Whether a segment is an invalid replacement field. -/
def FSeg.isBad : FSeg → Bool
  | .bad _ => true
  | _ => false

/-- Render one interpolation hole from the resolved fields, exactly as the
f-string expressions do. -/
def evalHole (r : Resolved) : Hole → String
  | .projectName => r.projectName
  | .widgetIntention => r.widgetIntention
  | .fileName => r.fileName
  | .fileMakerPath => r.fileMakerPath
  | .scriptName => r.scriptName
  | .styles =>
    if r.processedStyles.isEmpty then "(none)"
    else String.intercalate ", " r.processedStyles
  | .techNames => String.intercalate ", " r.techNames
  | .tsStatus => r.tsStatus
  | .stateLib => if r.stateLibrary = "" then "none" else r.stateLibrary

/-- The exception message class raised when CPython formats a replacement
field with an invalid format specification. -/
def valueErrorMsg : String := "Invalid format specifier"

/-- Evaluate the segments of an f-string left to right, accumulating
output; the first invalid replacement field raises. -/
def evalSegsFrom (r : Resolved) : String → List FSeg → Except String String
  | acc, [] => Except.ok acc
  | acc, (FSeg.lit s) :: rest => evalSegsFrom r (acc ++ s) rest
  | acc, (FSeg.hole h) :: rest => evalSegsFrom r (acc ++ evalHole r h) rest
  | _, (FSeg.bad _) :: _ => Except.error valueErrorMsg

/-- Evaluate an f-string template on the resolved fields. -/
def evalTemplate (segs : List FSeg) (r : Resolved) : Except String String :=
  evalSegsFrom r "" segs

/-- Literal body of the FileMakerService.js stub written by initialize_repo
(widget_setup_server.py lines 92-125). -/
def fmServiceStubBody : String :=
  "import FMGofer from \x27fm-gofer\x27;\n\n/**\n * FileMaker Service for executing FileMaker scripts\n *\n * This service provides a method to execute FileMaker scripts either synchronously\n * or asynchronously based on the method parameter.\n */\nconst FileMakerService = \x7b\n  /**\n   * Execute a FileMaker script\n   *\n   * @param \x7bObject\x7d props - Properties for script execution\n   * @param \x7bstring\x7d props.method - Method type (\x27async\x27 or any other value for sync)\n   * @param \x7bstring\x7d props.script - Name of the FileMaker script to execute\n   * @param \x7bstring|Object\x7d props.params - Parameters to pass to the FileMaker script (will be stringified if object)\n   * @returns \x7bPromise<string>|void\x7d - Returns a promise if method is async, otherwise void\n   */\n  executeScript(\x7b method, script = \"JS * fetch\", params \x7d) \x7b\n    // Convert params to string if it\x27s an object\n    const paramString = typeof params !== \x27string\x27 ? JSON.stringify(params) : params;\n\n    // Check if method is async\n    if (method === \x27async\x27) \x7b\n      return FMGofer.PerformScript(script, paramString);\n    \x7d else \x7b\n      // Use synchronous method\n      return FileMaker.PerformScript(script, paramString);\n    \x7d\n  \x7d\n\x7d;\n\nexport default FileMakerService;\n"

/-- Segment decomposition of the f-string prompt template of
widget_setup_server.py (lines 297-826).  `FSeg.bad` marks replacement fields
whose format specifications are invalid for str (unescaped literal braces in
the embedded JSON examples); evaluating such a field raises ValueError. -/
def serverTemplateSegs : List FSeg := [
  (FSeg.lit "\n## CONTEXT\nThis is a widget project named \x27"),
  (FSeg.hole Hole.projectName),
  (FSeg.lit "\x27 that the user described in the following: \""),
  (FSeg.hole Hole.widgetIntention),
  (FSeg.lit "\".\nThe widget is intended to be used in a FileMaker webviewer. The widget is being\ndeveloped in a JavaScript environment with the following specifications:\n– FileMaker file: "),
  (FSeg.hole Hole.fileName),
  (FSeg.lit "\n– Styles/examples: "),
  (FSeg.hole Hole.styles),
  (FSeg.lit "\n– Tech stack: "),
  (FSeg.hole Hole.techNames),
  (FSeg.lit ", TypeScript: "),
  (FSeg.hole Hole.tsStatus),
  (FSeg.lit ", State management: "),
  (FSeg.hole Hole.stateLib),
  (FSeg.lit ".\n\n/service/FileMakerService.js is a service that provides a method to execute FileMaker\nscripts either synchronously or asynchronously based on the method parameter. This is\nthe widget\x27s primary means of communicating with FileMaker. The service is designed to be\nused in a JavaScript environment.\n\n### Plain text example of the filemaker script JS * Fetch Data\n\x60\x60\x60\n# Purpose:   Backend filemaker service execution\n# Context:   universal\n# Change Log: @history 2024.Nov.14 marcus@claritybusinesssolutions.ca – created\n# Uses:      FMGofer\n\nSet Error Capture [ On ]\n\nIf [ IsEmpty ( Get ( ScriptParameter ) ) ]\n    # — EXAMPLES\n          # — UPDATE PARAMS (for testing in absence of ScriptParameter)\n            "),
  (FSeg.bad "\"action\": \"update\",\n              \"version\": \"vLatest\",\n              \"layout\": \"devTasks\",\n              \"action\": \"update\",\n              \"recordId\": \"9\",\n              \"fieldData\": \x7b\"f_completed\": 1\n                ...\n              \x7d\n            "),
  (FSeg.lit "\n\n          # — READ PARAMS (example)\n            "),
  (FSeg.bad "\"action\": \"read\",\n              \"version\": \"vLatest\",\n              \"layout\": \"devTasks\",\n              \"action\": \"read\",\n              \"query\": [\n                \x7b\"f_active\": 1\x7d\n              ]\n            "),
  (FSeg.lit "\n          \n          # — CREATE PARAMS (commented out)\n            "),
  (FSeg.bad "\"action\": \"ceate\",\n              \"version\": \"vLatest\",\n              \"layouts\": \"devTasks\",\n              \"action\": \"create\",\n              \"fieldData\": [\n                \x7b\"f_completed\": 1\x7d,\n                \x7b\"task\": \"pick up pills\"\x7d\n                ...\n              ]\n            "),
  (FSeg.lit "\n          # — DELETE PARAMS\n            "),
  (FSeg.bad "\"action\": \"delete\",\n              \"version\": \"vLatest\",\n              \"layouts\": \"devTasks\",\n              \"recordId\": \"9\"\n            "),
  (FSeg.lit "\n          # — RETURN CONTEXT PARAMS\n            "),
  (FSeg.bad "\"action\": \"returnContext\"\n            "),
  (FSeg.lit " \nElse\n  \n  Set Variable [ $payload ; Value: JSONGetElement ( Get ( ScriptParameter ) ; \"parameter\" ) ]\n  \n  If [ IsEmpty ( $payload ) ]\n    # Proxy through FileMaker.PerformScript (FMGofer) when no payload\n    Set Variable [ $payload ; Value: Get ( ScriptParameter ) ]\n    Perform Script on Server with Callback [\n      Specified: From list:     “JS * performSearch” ;\n      Parameter:                $payload ;\n      Callback script specified: From list: “JS * returnResult” ;\n      Parameter:                Get ( ScriptResult ) ;\n      State:                    Continue\n    ]\n    Exit Script [ Text Result:\n      JSONSetElement (\n        \"\" ;\n        [\"messages[0].message\" ; \"fetch sent for processing\" ; JSONString] ;\n        [\"messages[0].code\"    ; 0                     ; JSONNumber]\n      )\n    ]\n  End If\n  \nEnd If\n\n\n# — Grab callback info from FMGofer payload\nSet Variable [ $callbackName ; Value: JSONGetElement ( Get ( ScriptParameter ) ; \"callbackName\" ) ]\nSet Variable [ $promiseID    ; Value: JSONGetElement ( Get ( ScriptParameter ) ; \"promiseID\"    ) ]\n\n# — Find the Web Viewer object on the current layout\nSet Variable [ $webViewer ; Value:\n  While (\n    [ input     = LayoutObjectNames ( Get ( FileName ) ; Get ( LayoutName ) ) ;\n      N         = ValueCount ( input ) ;\n      theResult = \"\" ;\n      X         = 1\n    ] ;\n    X ≤ N ;\n    [\n      thisResult = GetValue ( input ; X ) ;\n      test       = PatternCount ( thisResult ; \"WV\" ) ;\n      theResult  = If ( test ; List ( theResult ; thisResult ) ; theResult ) ;\n      X          = X + 1\n    ] ;\n    theResult\n  )\n]\n\n\n# — Validate that an “action” was passed\nIf [ IsEmpty ( JSONGetElement ( $payload ; \"action\" ) ) ]\n  Set Variable [ $error ; Value: \"action is required.\" ]\n  Perform JavaScript in Web Viewer [\n    Object Name:   $webViewer ;\n    Function Name: $callbackName ;\n    Parameters:    $promiseID ; $responseJSON ; $error\n  ]\n  Exit Script [ Text Result: \"\" ]\nEnd If\n\n\n# — Branch by action type\nSet Variable [ $action ; Value: JSONGetElement ( $payload ; \"action\" ) ]\nSet Variable [ $layout ; Value: JSONGetElement ( $payload ; \"layout\" ) ]\n\nIf [ $action = \"read\" ]\n  \n  Set Variable [ $query ; Value: JSONGetElement ( $payload ; \"query\" ) ]\n  Set Variable [ $data  ; Value:\n    JSONSetElement ( \"\" \n        ;[ \"action\" ;JSONGetElement($_payload;\"action\"); JSONString ] //read, metaData, create, update, delete, and duplicate\n        ;[ \"version\" ;\"vLatest\"; JSONString ]\n        ;[ \"layouts\" ;$layout; JSONString ]\n        ;[ \"query\" ; $query ; JSONArray ]\n        ;[ \"dateformats\" ; 1 ; JSONString ]\n        ;[ \"limit\" ; 1000 ; JSONString ]\n    )\n  ]\n  Execute FileMaker Data API [ Select ; Target: $responseJSON ; $data ]\n  \nElse If [ $action = \"update\" ]\n  \n  Set Variable [ $recordId  ; Value: JSONGetElement ( $payload ; \"recordId\"  ) ]\n  Set Variable [ $fieldData ; Value: JSONGetElement ( $payload ; \"fieldData\" ) ]\n  Set Variable [ $data      ; Value:\n    JSONSetElement ( \"\" \n        ;[ \"action\" ;JSONGetElement($_payload;\"action\"); JSONString ] //read, metaData, create, update, delete, and duplicate\n        ;[ \"version\" ;\"vLatest\"; JSONString ]\n        ;[ \"layouts\" ;$layout; JSONString ]\n        ;[ \"recordId\" ;$recordID; JSONString ]\n        ;[ \"fieldData\" ; $fieldData ; JSONObject ]\n    )\n  ]\n  Execute FileMaker Data API [ Select ; Target: $responseJSON ; $data ]\n  \nElse If [ $action = \"create\" ]\n  \n  Set Variable [ $fieldData ; Value: JSONGetElement ( $payload ; \"fieldData\" ) ]\n  Set Variable [ $data      ; Value:\n    JSONSetElement ( \"\" \n        ;[ \"action\" ;JSONGetElement($_payload;\"action\"); JSONString ] //read, metaData, create, update, delete, and duplicate\n        ;[ \"version\" ;\"vLatest\"; JSONString ]\n        ;[ \"layouts\" ;$layout; JSONString ]\n        ;[ \"fieldData\" ; $fieldData ; JSONObject ]\n    )\n  ]\n  Execute FileMaker Data API [ Select ; Target: $responseJSON ; $data ]\n  \nElse If [ $action = \"delete\" ]\n  \n  Set Variable [ $recordId ; Value: JSONGetElement ( $payload ; \"recordId\" ) ]\n  Set Variable [ $data     ; Value:\n    JSONSetElement ( \"\" \n        ;[ \"action\" ;JSONGetElement($_payload;\"action\"); JSONString ] //read, metaData, create, update, delete, and duplicate\n        ;[ \"version\" ;\"vLatest\"; JSONString ]\n        ;[ \"layouts\" ;$layout; JSONString ]\n        ;[ \"recordId\" ; $recordId ; JSONString ]\n    )\n  ]\n  Execute FileMaker Data API [ Select ; Target: $responseJSON ; $data ]\n  \nElse If [ $action = \"returnContext\" ]\n  \n  Set Variable [ $data         ; Value:\n    GetTableDDL (\n      JSONMakeArray (\n        TableNames ( Get ( FileName ) ) ; \"\" ; JSONString ; \"\"\n      )\n    )\n  ]\n  Set Variable [ $responseJSON ; Value:\n    JSONSetElement (\n      \"\" ;\n      [\"userName\" ; Get ( UserName ) ; JSONString] ;\n      [\"dbModel\"  ; $data           ; JSONString]\n    )\n  ]\n  \nEnd If\n\n\n# — Error handling\nSet Variable [ $errorNum ; Value: Get ( LastError ) ]\nIf [ $errorNum ≠ 0 and $errorNum ≠ 401 ]\n  Set Variable [ $error ; Value: ErrorText ( $errorNum ) ]\nEnd If\n\n\n# — Return result to the Web Viewer callback\nPerform JavaScript in Web Viewer [\n  Object Name:   $webViewer ;\n  Function Name: $callbackName ;\n  Parameters:    $promiseID ; $responseJSON ; $error\n]\n\x60\x60\x60\n\n### Plain text example of the filemaker script JS * performSearch\n\x60\x60\x60\n# Purpose:   sync process to manage FileMaker backend calls\n# Context:   universal\n# Change Log: @history 2024.Nov.14 marcus@claritybusinesssolutions.ca – created\n\nSet Error Capture [ On ]\n\nIf [ IsEmpty ( Get ( ScriptParameter ) ) ]\n    # — EXAMPLES\n          # — UPDATE PARAMS (for testing in absence of ScriptParameter)\n            "),
  (FSeg.bad "\"action\": \"update\",\n              \"version\": \"vLatest\",\n              \"layout\": \"devTasks\",\n              \"action\": \"update\",\n              \"recordId\": \"9\",\n              \"fieldData\": \x7b\"f_completed\": 1\n                ...\n              \x7d\n            "),
  (FSeg.lit "\n\n          # — READ PARAMS (example)\n            "),
  (FSeg.bad "\"action\": \"read\",\n              \"version\": \"vLatest\",\n              \"layout\": \"devTasks\",\n              \"action\": \"read\",\n              \"query\": [\n                \x7b\"f_active\": 1\x7d\n              ]\n            "),
  (FSeg.lit "\n          \n          # — CREATE PARAMS (commented out)\n            "),
  (FSeg.bad "\"action\": \"ceate\",\n              \"version\": \"vLatest\",\n              \"layouts\": \"devTasks\",\n              \"action\": \"create\",\n              \"fieldData\": [\n                \x7b\"f_completed\": 1\x7d,\n                \x7b\"task\": \"pick up pills\"\x7d\n              ]\n            "),
  (FSeg.lit "\n          # — DELETE PARAMS\n            "),
  (FSeg.bad "\"action\": \"delete\",\n              \"version\": \"vLatest\",\n              \"layouts\": \"devTasks\",\n              \"recordId\": \"9\"\n            "),
  (FSeg.lit "\n          # — RETURN CONTEXT PARAMS\n            "),
  (FSeg.bad "\"action\": \"returnContext\"\n            "),
  (FSeg.lit " \nElse\n  \n  Set Variable [ $payload ; Value: Get ( ScriptParameter ) ]\n  \nEnd If\n\n\n# — Locate the Web Viewer on the current layout\nSet Variable [ $webViewer ; Value:\n  While (\n    [ input     = LayoutObjectNames ( Get ( FileName ) ; Get ( LayoutName ) ) ;\n      N         = ValueCount ( input ) ;\n      theResult = \"\" ;\n      X         = 1\n    ] ;\n    X ≤ N ;\n    [\n      thisResult = GetValue ( input ; X ) ;\n      theResult  = If ( PatternCount ( thisResult ; \"WV\" ) ; List ( theResult ; thisResult ) ; theResult ) ;\n      X = X + 1\n    ] ;\n    theResult\n  )\n]\n\n\n# — Dispatch by action\nSet Variable [ $action ; Value: JSONGetElement ( $payload ; \"action\" ) ]\nSet Variable [ $layout ; Value: JSONGetElement ( $payload ; \"layout\" ) ]\n\nIf [ $action = \"read\" ]\n  \n  Set Variable [ $query ; Value: JSONGetElement ( $payload ; \"query\" ) ]\n  Set Variable [ $data  ; Value:\n    JSONSetElement ( \"\" \n        ;[ \"action\" ;JSONGetElement($_payload;\"action\"); JSONString ] //read, metaData, create, update, delete, and duplicate\n        ;[ \"version\" ;\"vLatest\"; JSONString ]\n        ;[ \"layouts\" ;$layout; JSONString ]\n        ;[ \"query\" ; $query ; JSONArray ]\n        ;[ \"dateformats\" ; 1 ; JSONString ]\n        ;[ \"limit\" ; 1000 ; JSONString ]\n    )\n  ]\n  Execute FileMaker Data API [ Select ; Target: $responseJSON ; $data ]\n  \nElse If [ $action = \"update\" ]\n  \n  Set Variable [ $recordId  ; Value: JSONGetElement ( $payload ; \"recordId\"  ) ]\n  Set Variable [ $fieldData ; Value: JSONGetElement ( $payload ; \"fieldData\" ) ]\n  Set Variable [ $data      ; Value:\n    JSONSetElement ( \"\" \n        ;[ \"action\" ;JSONGetElement($_payload;\"action\"); JSONString ] //read, metaData, create, update, delete, and duplicate\n        ;[ \"version\" ;\"vLatest\"; JSONString ]\n        ;[ \"layouts\" ;$layout; JSONString ]\n        ;[ \"recordId\" ;$recordID; JSONString ]\n        ;[ \"fieldData\" ; $fieldData ; JSONObject ]\n    )\n  ]\n  Execute FileMaker Data API [ Select ; Target: $responseJSON ; $data ]\n  \nElse If [ $action = \"create\" ]\n  \n  Set Variable [ $fieldData ; Value: JSONGetElement ( $payload ; \"fieldData\" ) ]\n  Set Variable [ $data      ; Value:\n    JSONSetElement ( \"\" \n        ;[ \"action\" ;JSONGetElement($_payload;\"action\"); JSONString ] //read, metaData, create, update, delete, and duplicate\n        ;[ \"version\" ;\"vLatest\"; JSONString ]\n        ;[ \"layouts\" ;$layout; JSONString ]\n        ;[ \"fieldData\" ; $fieldData ; JSONObject ]\n    )\n  ]\n  Execute FileMaker Data API [ Select ; Target: $responseJSON ; $data ]\n  \nElse If [ $action = \"returnContext\" ]\n  \n  # Gather context info via ExecuteSQL\n  Set Variable [ $userID    ; Value: /* ExecuteSQL(\"SELECT ...\") */ ]\n  Set Variable [ $teamIDs   ; Value: /* JSONMakeArray( ExecuteSQL(\"SELECT ...\") ) */ ]\n  Set Variable [ $responseJSON ; Value:\n    JSONSetElement ( \"\" \n        ;[ \"action\" ;JSONGetElement($_payload;\"action\"); JSONString ] //read, metaData, create, update, delete, and duplicate\n        ;[ \"version\" ;\"vLatest\"; JSONString ]\n        ;[ \"layouts\" ;$layout; JSONString ]\n        ;[ \"recordId\" ; $recordId ; JSONString ]\n    )\n  ]\n  \nEnd If\n\n\n# — Return combined payload + response\nExit Script [ Text Result:\n  JSONSetElement (\n    $payload ;\n    [\"responseJSON\" ; $responseJSON ; JSONObject]\n  )\n]\n\x60\x60\x60\n\n### Plain text example of the filemaker script JS * returnResult\n\x60\x60\x60\n# Purpose:   filemaker sync process callback\n# Context:   universal\n# Change Log: @history 2024.Nov.14 marcus@claritybusinesssolutions.ca – created\n\nSet Error Capture [ On ]\n\nIf [ IsEmpty ( Get ( ScriptParameter ) ) ]\n    Set Variable [ $payload ; Value: JSONGetElement ( Get ( ScriptResult ) ; \"\" ) ]\nElse\n    Set Variable [ $payload ; Value: JSONGetElement ( Get ( ScriptParameter ) ; \"\" ) ]\nEnd If\n\nSet Variable [ $callBackName     ; Value: JSONGetElement ( Get ( ScriptResult ) ; \"callbackName\" ) ]\nSet Variable [ $callBackID       ; Value: JSONGetElement ( $payload ; \"callbackID\" ) ]\nSet Variable [ $callBackFunction ; Value: JSONGetElement ( $payload ; \"callbackFunction\" ) ]\nSet Variable [ $responseJSON     ; Value: JSONGetElement ( Get ( ScriptResult ) ; \"responseJSON\" ) ]\n\nSet Variable [ $data ; Value:\n  JSONSetElement (\n    \"\" ;\n    [\"callbackId\"       ; $callBackID       ; JSONString] ;\n    [\"callbackFunction\" ; $callBackFunction ; JSONString] ;\n    [\"response\"         ; JSONGetElement ( $responseJSON ; \"response\" ) ; JSONObject]\n  )\n]\n\nSet Variable [ $webViewer ; Value:\n  While (\n    [ input     = LayoutObjectNames ( Get ( FileName ) ; Get ( LayoutName ) ) ;\n      N         = ValueCount ( input ) ;\n      theResult = \"\" ;\n      X         = 1\n    ] ;\n    X ≤ N ;\n    [\n      thisResult = GetValue ( input ; X ) ;\n      test       = PatternCount ( thisResult ; \"WV\" ) ;\n      theResult  = If ( test ; List ( theResult ; thisResult ) ; theResult ) ;\n      X          = X + 1\n    ] ;\n    theResult\n  )\n]\n\nPerform JavaScript in Web Viewer [ \n  Object Name:   $webViewer ; \n  Function Name: $callBackName ; \n  Parameters:    $data \n\n\x60\x60\x60\n\n### Plain text example of the filemaker script UploadToHTML\n\x60\x60\x60\nSet Variable [ $params     ; Value: Get ( ScriptParameter ) ]\nSet Variable [ $path       ; Value: JSONGetElement ( $params ; \"thePath\" ) ]\nSet Variable [ $widgetName ; Value: JSONGetElement ( $params ; \"widgetName\" ) ]\n\nIf [ IsEmpty ( $path ) ]\n  Exit Script [ Text Result: \"\" ]\nEnd If\n\nIf [ Get ( SystemPlatform ) = -2 ]\n  Set Variable [ $Format ; Value: WinPath ]\nElse\n  Set Variable [ $Format ; Value: PosixPath ]\nEnd If\n\nSet Variable [ $path ; Value: ConvertToFileMakerPath ( $path ; $Format ) ]\n\nNew Window [ Style: Document ; Using layout: “HTML” (HTML) ]\n\nEnter Find Mode [ Pause: Off ]\nSet Field [ HTML::Name ; \"==\" & $widgetName ]\nPerform Find []\n\nIf [ Get ( FoundCount ) = 0 ]\n  New Record/Request\n  Set Field [ HTML::Name ; $widgetName ]\n  Set Variable [ $message ; Value: $widgetName & \" has been added.\" ]\nElse\n  Set Variable [ $message ; Value: $widgetName & \" has been updated.\" ]\nEnd If\n\nOpen Data File [ $path ; Target: $fileId ]\nRead from Data File [ File ID: $fileId ; Target: HTML::HTML ; Read as: UTF‑8 ]\nClose Data File [ File ID: $fileId ]\n\nCommit Records/Requests [ With dialog: On ]\nClose Window [ Current Window ]\n\nShow Custom Dialog [ “New version uploaded” ; $message ]\n\n### Additional Information\n\nWidgets do **not** typically include testing, but you may include it if you feel it\nis necessary with permission. Setting up sample data so the widget can be tested in a browser is appreciated.\nSimply trap for the absense of the FileMaker object to utilize sample data.\n\n## IMPORTANT\nThe repo uses common JS file extensions. If you are using React or Next.js you must\nconvert the files to .jsx or .tsx respectively. You must also update the package.json\nfile to include the necessary dependencies and scripts for React or Next.js.\n\n## TASKS\n1) Complete the set up by updating \x27widget.config.cjs\x27\nmodule.exports = \x7b\n  widgetName: \""),
  (FSeg.hole Hole.projectName),
  (FSeg.lit "\" || \"jsDev\",\n  server: \""),
  (FSeg.hole Hole.fileMakerPath),
  (FSeg.lit "\" || \"$\",\n  file: \""),
  (FSeg.hole Hole.fileName),
  (FSeg.lit "\" || \"jsDev\",\n  uploadScript: \""),
  (FSeg.hole Hole.scriptName),
  (FSeg.lit "\" || \"UploadToHTML\",\n\x7d\n\n2) Then consider the user\x27s intended purpose for the widget. If any aspect of its development remains unclear\nyou should ask the user for clarification. Document the steps and stages of development in the\n/docs/development_tasks.md file. This file should include:\n2.1. A description of the widget\x27s intended purpose.\n2.2. libraries and frameworks to install including FMGofer\n2.3. Styles to implement referencing url/path provided by the user and instructions to create CSS files based on those image/examples\n2.4. State management to implement (if any)\n2.5. Services to create (if any)\n2.6. Components to create\n2.7. Pages to create, (if any)\n2.8. Any other relevant information\n\n3) You should then ask the user to paste \x27GetTableDDL ( JSONMakeArray ( TableNames ( Get(FileName) ) ; \"\" ; JSONString ) ; \"\" )\x27 into their\ndata view and provide you with the result. This will be used to create the widget\x27s data model. The result should be placed in /docs/data_model.md\nThis data model can then be used with the FileMakerService to get the data from FileMaker.\n\nWith the user\x27s permission you may proceed to develop the widget\x27s intended features and functionality\n\nWhen you are finished you should: \n1) remove unused example files and folders\n2) run the project using \x27npm start\x27 and ensure everything works as expected.\n3) open jsDev.fmp12 by running in terminal open and then the path to the file\n4) provide the user with a summary of the development process and any\nadditional steps they need to take to complete the widget.\n\n## CONSTRAINTS\nFollow the directions provided in development_guidelines.md. If the file does not exist then use the following:\n1. You may use third-party libraries under the following conditions.\n   - You must not use any third-party libraries or frameworks without user consent.\n   - You must not use any third-party libraries or frameworks that are not compatible with FileMaker.\n   - You must not use any third-party libraries or frameworks that are not compatible with the user\x27s intended purpose for the widget.\n   - You may not use libraries if one already exists that completes the same functionality.\n2. You must not use any deprecated or obsolete JavaScript features.\n3. You must not use any non-standard JavaScript features or APIs.\n4. You must not use any non-standard HTML or CSS features or APIs.\n    - CSS must remain grouped and organized in a single file.\n    - CSS must be as DRY as possible\n    - CSS should comply with the example provided. If none is provided then implement a modern elegent consistent style\n5. You must not use any non-standard FileMaker features or APIs.\n")
]

/-- Segment decomposition of the f-string prompt template of prompt_tool.py
(lines 112-844).  All literal braces there are escaped by doubling, so every
replacement field is a valid interpolation hole. -/
def toolTemplateSegs : List FSeg := [
  (FSeg.lit "## CONTEXT\nThis is a widget project named \x27"),
  (FSeg.hole Hole.projectName),
  (FSeg.lit "\x27 that the user described in the following: \""),
  (FSeg.hole Hole.widgetIntention),
  (FSeg.lit "\".\nThe widget is intended to be used in a FileMaker webviewer. The widget is being\ndeveloped in a JavaScript environment with the following specifications:\n– FileMaker file: "),
  (FSeg.hole Hole.fileName),
  (FSeg.lit "\n– Styles/examples: "),
  (FSeg.hole Hole.styles),
  (FSeg.lit "\n– Tech stack: "),
  (FSeg.hole Hole.techNames),
  (FSeg.lit ", TypeScript: "),
  (FSeg.hole Hole.tsStatus),
  (FSeg.lit ", State management: "),
  (FSeg.hole Hole.stateLib),
  (FSeg.lit ".\n\n/service/FileMakerService.js is a service that provides a method to execute FileMaker\nscripts either synchronously or asynchronously based on the method parameter. This is\nthe widget\x27s primary means of communicating with FileMaker. The service is designed to be\nused in a JavaScript environment.\n\n## EXAMPLES\n### Plain text example of the filemaker script JS * Fetch Data\n\x60\x60\x60\n# Purpose:   Backend filemaker service execution\n# Context:   universal\n# Change Log: @history 2024.Nov.14 marcus@claritybusinesssolutions.ca – created\n# Uses:      FMGofer\n\nSet Error Capture [ On ]\n\nIf [ IsEmpty ( Get ( ScriptParameter ) ) ]\n    # — EXAMPLES\n          # — UPDATE PARAMS (for testing in absence of ScriptParameter)\n            \x7b\"action\": \"update\",\n              \"version\": \"vLatest\",\n              \"layout\": \"devTasks\",\n              \"action\": \"update\",\n              \"recordId\": \"9\",\n              \"fieldData\": \x7b\"f_completed\": 1\n                ...\n              \x7d\n            \x7d\n\n          # — READ PARAMS (example)\n            \x7b\"action\": \"read\",\n              \"version\": \"vLatest\",\n              \"layout\": \"devTas\n              \"query\": [\n                \x7b\"f_active\": 1\x7d\n              ]\n            \x7d\n          \n          # — CREATE PARAMS (commented out)\n            \x7b\"action\": \"ceate\",\n              \"version\": \"vLatest\",\n              \"layouts\": \"devTasks\",\n              \"action\": \"create\",\n              \"fieldData\": [\n                \x7b\"f_completed\": 1\x7d,\n                \x7b\"task\": \"pick up pills\"\x7d\n                ...\n              ]\n            \x7d\n          # — DELETE PARAMS\n            \x7b\"action\": \"delete\",\n              \"version\": \"vLatest\",\n              \"layouts\": \"devTasks\",\n              \"recordId\": \"9\"\n            \x7d\n          # — RETURN CONTEXT PARAMS\n            \x7b\"action\": \"returnContext\"\n            \x7d\nElse\n  \n  Set Variable [ $payload ; Value: JSONGetElement ( Get ( ScriptParameter ) ; \"parameter\" ) ]\n  \n  If [ IsEmpty ( $payload ) ]\n    # Proxy through FileMaker.PerformScript (FMGofer) when no payload\n    Set Variable [ $payload ; Value: Get ( ScriptParameter ) ]\n    Perform Script on Server with Callback [\n      Specified: From list:     \"JS * performSearch\" ;\n      Parameter:                $payload ;\n      Callback script specified: From list: \"JS * returnResult\" ;\n      Parameter:                Get ( ScriptResult ) ;\n      State:                    Continue\n    ]\n    Exit Script [ Text Result:\n      JSONSetElement (\n        \"\" ;\n        [\"messages[0].message\" ; \"fetch sent for processing\" ; JSONString] ;\n        [\"messages[0].code\"    ; 0                     ; JSONNumber]\n      )\n    ]\n  End If\n  \nEnd If\n\n\n# — Grab callback info from FMGofer payloadks\",\nSet Variable [ $callbackName ; Value: JSONGetElement ( Get ( ScriptParameter ) ; \"callbackName\" ) ]\nSet Variable [ $promiseID    ; Value: JSONGetElement ( Get ( ScriptParameter ) ; \"promiseID\"    ) ]\n\n# — Find the Web Viewer object on the current layout\nSet Variable [ $webViewer ; Value:\n  While (\n    [ input     = LayoutObjectNames ( Get ( FileName ) ; Get ( LayoutName ) ) ;\n      N         = ValueCount ( input ) ;\n      theResult = \"\" ;\n      X         = 1\n    ] ;\n    X ≤ N ;\n    [\n      thisResult = GetValue ( input ; X ) ;\n      test       = PatternCount ( thisResult ; \"WV\" ) ;\n      theResult  = If ( test ; List ( theResult ; thisResult ) ; theResult ) ;\n      X          = X + 1\n    ] ;\n    theResult\n  )\n]\n\n\n# — Validate that an \"action\" was passed\nIf [ IsEmpty ( JSONGetElement ( $payload ; \"action\" ) ) ]\n  Set Variable [ $error ; Value: \"action is required.\" ]\n  Perform JavaScript in Web Viewer [\n    Object Name:   $webViewer ;\n    Function Name: $callbackName ;\n    Parameters:    $promiseID ; $responseJSON ; $error\n  ]\n  Exit Script [ Text Result: \"\" ]\nEnd If\n\n\n# — Branch by action type\nSet Variable [ $action ; Value: JSONGetElement ( $payload ; \"action\" ) ]\nSet Variable [ $layout ; Value: JSONGetElement ( $payload ; \"layout\" ) ]\n\nIf [ $action = \"read\" ]\n  \n  Set Variable [ $actio ; Value: JSONGetElement ( $payload ; nquery\" ) ]\n  Set Variable [ $data  ; Value\"\n    JSONSetElement ( \"\" \n        ;[ \"action\" ;JSONGetElement($_payload;\"action\"); JSONString ] //read, metaData, create, update, delete, and duplicate\n        ;[ \"version\" ;\"vLatest\"; JSONString ]\n      : ;  \"layouts\" ;$layout; JSONString ]\n        ;[ \"query\" ; $query ; JSONArray ]\n        ;[ \"dateformats\" ; 1 ; JSONString ]\n        ;[ \"limit\" ; 1000 ; JSONString ]\n    )\n  ]\n  Execute FileMaker Data API [ Select ; Target: $responseJSON ; $data ]\n  \nElse If [ $action = \"update\" ]\n  \n  Set Variable [ $recordId  ; Value: JSONGetElement ( $payload ; \"recordId\"  ) ]\n  Set Variable [ $fieldData ; Value: JSONGetElement ( $payload ; \"fieldData\" ) ]\n  Set Variable [ $data      ; Value:\n    JSONSetElement ( \"\" \n        ;[ \"action\" ;JSONGetElement($_payload;\"action\"); JSONString ] //read, metaData, create, update, delete, and duplicate\n        ;[ \"version\" ;\"vLatest\"; JSONString ]\n        ;[ \"layouts\" ;$layout; JSONString ]\n        ;[ \"recordId\" ;$recordID; JSONString ]\n        ;[ \"fieldData\" ; $fieldData ; JSONObject ]\n    )\n  ]\n  Execute FileMaker Data API [ Select ; Target: $responseJSON ; $data ]\n  \nElse If [ $action = \"create\" ]\n  \n  Set Variable [ $fieldData ; Value: JSONGetElement ( $payload ; \"fieldData\" ) ]\n  Set Variable [ $data      ; Value:\n    JSONSetElement ( \"\" \n        ;[ \"action\" ;JSONGetElement($_payload;\"action\"); JSONString ] //read, metaData, create, update, delete, and duplicate\n        ;[ \"version\" ;\"vLatest\"; JSONString ]\n        ;[ \"layouts\" ;$layout; JSONString ]\n        ;[ \"fieldData\" ; $fieldData ; JSONObject ]\n    )\n  ]\n  Execute FileMaker Data API [ Select ; Target: $responseJSON ; $data ]\n  \nElse If [ $action = \"delete\" ]\n  \n  Set Variable [ $recordId ; Value: JSONGetElement ( $payload ; \"recordId\" ) ]\n  Set Variable [ $data     ; Value:\n    JSONSetElement ( \"\" \n        ;[ \"action\" ;JSONGetElement($_payload;\"action\"); JSONString ] //read, metaData, create, update, delete, and duplicate\n        ;[ \"version\" ;\"vLatest\"; JSONString ]\n        ;[ \"layouts\" ;$layout; JSONString ]\n        ;[ \"recordId\" ; $recordId ; JSONString ]\n    )\n  ]\n  Execute FileMaker Data API [ Select ; Target: $responseJSON ; $data ]\n  \nElse If [ $action = \"returnContext\" ]\n  \n  Set Variable [ $data         ; Value:\n    GetTableDDL (\n      JSONMakeArray (\n        TableNames ( Get ( FileName ) ) ; \"\" ; JSONString ; \"\"\n      )\n    )\n  ]\n  Set Variable [ $responseJSON ; Value:\n    JSONSetElement (\n      \"\" ;\n      [\"userName\" ; Get ( UserName ) ; JSONString] ;\n      [\"dbModel\"  ; $data           ; JSONString]\n    )\n  ]\n  \nEnd If\n\n\n# — Error handling\nSet Variable [ $errorNum ; Value: Get ( LastError ) ]\nIf [ $errorNum ≠ 0 and $errorNum ≠ 401 ]\n  Set Variable [ $error ; Value: ErrorText ( $errorNum ) ]\nEnd If\n\n\n# — Return result to the Web Viewer callback\nPerform JavaScript in Web Viewer [\n  Object Name:   $webViewer ;\n  Function Name: $callbackName ;\n  Parameters:    $promiseID ; $responseJSON ; $error\n]\n\x60\x60\x60\n\n### Plain text example of the filemaker script JS * performSearch\n\x60\x60\x60\n# Purpose:   sync process to manage FileMaker backend calls\n# Context:   universal\n# Change Log: @history 2024.Nov.14 marcus@claritybusinesssolutions.ca – created\n\nSet Error Capture [ On ]\n\nIf [ IsEmpty ( Get ( ScriptParameter ) ) ]\n    # — EXAMPLES\n          # — UPDATE PARAMS (for testing in absence of ScriptParameter)\n            \x7b\"action\": \"update\",\n              \"version\": \"vLatest\",\n              \"layout\": \"devTasks\",\n              \"action\": \"update\",\n              \"recordId\": \"9\",\n              \"fieldData\": \x7b\"f_completed\": 1\n                ...\n              \x7d\n            \x7d\n\n          # — READ PARAMS (example)\n            \x7b\"action\": \"read\",\n              \"version\": \"vLatest\",\n              \"layout\": \"devTasks\",\n              \"action\": \"read\",\"read\",\n              \"query\": [\n                \x7b\"f_active\": 1\x7d\n              ]\n            \x7d\n          \n          # — CREATE PARAMS (commented out)\n            \x7b\"action\": \"ceate\",\n              \"version\": \"vLatest\",\n              \"layouts\": \"devTasks\",\n              \"action\": \"create\",\n              \"fieldData\": [\n                \x7b\"f_completed\": 1\x7d,\n                \x7b\"task\": \"pick up pills\"\x7d\n                ...\n              ]\n            \x7d\n          # — DELETE PARAMS\n            \x7b\"action\": \"delete\",\n              \"version\": \"vLatest\",\n              \"layouts\": \"devTasks\",\n              \"recordId\": \"9\"\n            \x7d\n          # — RETURN CONTEXT PARAMS\n            \x7b\"action\": \"returnContext\"\n            \x7d\nElse\n  \n  Set Variable [ $payload ; Value: JSONGetElement ( Get ( ScriptParameter ) ; \"parameter\" ) ]\n  \n  If [ IsEmpty ( $payload ) ]\n    # Proxy through FileMaker.PerformScript (FMGofer) when no payload\n    Set Variable [ $payload ; Value: Get ( ScriptParameter ) ]\n    Perform Script on Server with Callback [\n      Specified: From list:     \"JS * performSearch\" ;\n      Parameter:                $payload ;\n      Callback script specified: From list: \"JS * returnResult\" ;\n      Parameter:                Get ( ScriptResult ) ;\n      State:                    Continue\n    ]\n    Exit Script [ Text Result:\n      JSONSetElement (\n        \"\" ;\n        [\"messages[0].message\" ; \"fetch sent for processing\" ; JSONString] ;\n        [\"messages[0].code\"    ; 0                     ; JSONNumber]\n      )\n    ]\n  End If\n  \nEnd If\n\n\n# — Grab callback info from FMGofer payload\nSet Variable [ $callbackName ; Value: JSONGetElement ( Get ( ScriptParameter ) ; \"callbackName\" ) ]\nSet Variable [ $promiseID    ; Value: JSONGetElement ( Get ( ScriptParameter ) ; \"promiseID\"    ) ]\n\n# — Find the Web Viewer object on the current layout\nSet Variable [ $webViewer ; Value:\n  While (\n    [ input     = LayoutObjectNames ( Get ( FileName ) ; Get ( LayoutName ) ) ;\n      N         = ValueCount ( input ) ;\n      theResult = \"\" ;\n      X         = 1\n    ] ;\n    X ≤ N ;\n    [\n      thisResult = GetValue ( input ; X ) ;\n      test       = PatternCount ( thisResult ; \"WV\" ) ;\n      theResult  = If ( test ; List ( theResult ; thisResult ) ; theResult ) ;\n      X          = X + 1\n    ] ;\n    theResult\n  )\n]\n\n\n# — Validate that an \"action\" was passed\nIf [ IsEmpty ( JSONGetElement ( $payload ; \"action\" ) ) ]\n  Set Variable [ $error ; Value: \"action is required.\" ]\n  Perform JavaScript in Web Viewer [\n    Object Name:   $webViewer ;\n    Function Name: $callbackName ;\n    Parameters:    $promiseID ; $responseJSON ; $error\n  ]\n  Exit Script [ Text Result: \"\" ]\nEnd If\n\n\n# — Branch by action type\nSet Variable [ $action ; Value: JSONGetElement ( $payload ; \"action\" ) ]\nSet Variable [ $layout ; Value: JSONGetElement ( $payload ; \"layout\" ) ]\n\nIf [ $action = \"read\" ]\n  \n  Set Variable [ $query ; Value: JSONGetElement ( $payload ; \"query\" ) ]\n  Set Variable [ $data  ; Value:\n    JSONSetElement ( \"\" \n        ;[ \"action\" ;JSONGetElement($_payload;\"action\"); JSONString ] //read, metaData, create, update, delete, and duplicate\n        ;[ \"version\" ;\"vLatest\"; JSONString ]\n        ;[ \"layouts\" ;$layout; JSONString ]\n        ;[ \"query\" ; $query ; JSONArray ]\n        ;[ \"dateformats\" ; 1 ; JSONString ]\n        ;[ \"limit\" ; 1000 ; JSONString ]\n    )\n  ]\n  Execute FileMaker Data API [ Select ; Target: $responseJSON ; $data ]\n  \nElse If [ $action = \"update\" ]\n  \n  Set Variable [ $recordId  ; Value: JSONGetElement ( $payload ; \"recordId\"  ) ]\n  Set Variable [ $fieldData ; Value: JSONGetElement ( $payload ; \"fieldData\" ) ]\n  Set Variable [ $data      ; Value:\n    JSONSetElement ( \"\" \n        ;[ \"action\" ;JSONGetElement($_payload;\"action\"); JSONString ] //read, metaData, create, update, delete, and duplicate\n        ;[ \"version\" ;\"vLatest\"; JSONString ]\n        ;[ \"layouts\" ;$layout; JSONString ]\n        ;[ \"recordId\" ;$recordID; JSONString ]\n        ;[ \"fieldData\" ; $fieldData ; JSONObject ]\n    )\n  ]\n  Execute FileMaker Data API [ Select ; Target: $responseJSON ; $data ]\n  \nElse If [ $action = \"create\" ]\n  \n  Set Variable [ $fieldData ; Value: JSONGetElement ( $payload ; \"fieldData\" ) ]\n  Set Variable [ $data      ; Value:\n    JSONSetElement ( \"\" \n        ;[ \"action\" ;JSONGetElement($_payload;\"action\"); JSONString ] //read, metaData, create, update, delete, and duplicate\n        ;[ \"version\" ;\"vLatest\"; JSONString ]\n        ;[ \"layouts\" ;$layout; JSONString ]\n        ;[ \"fieldData\" ; $fieldData ; JSONObject ]\n    )\n  ]\n  Execute FileMaker Data API [ Select ; Target: $responseJSON ; $data ]\n  \nElse If [ $action = \"delete\" ]\n  \n  Set Variable [ $recordId ; Value: JSONGetElement ( $payload ; \"recordId\" ) ]\n  Set Variable [ $data     ; Value:\n    JSONSetElement ( \"\" \n        ;[ \"action\" ;JSONGetElement($_payload;\"action\"); JSONString ] //read, metaData, create, update, delete, and duplicate\n        ;[ \"version\" ;\"vLatest\"; JSONString ]\n        ;[ \"layouts\" ;$layout; JSONString ]\n        ;[ \"recordId\" ; $recordId ; JSONString ]\n    )\n  ]\n  Execute FileMaker Data API [ Select ; Target: $responseJSON ; $data ]\n  \nElse If [ $action = \"returnContext\" ]\n  \n  Set Variable [ $data         ; Value:\n    GetTableDDL (\n      JSONMakeArray (\n        TableNames ( Get ( FileName ) ) ; \"\" ; JSONString ; \"\"\n      )\n    )\n  ]\n  Set Variable [ $responseJSON ; Value:\n    JSONSetElement (\n      \"\" ;\n      [\"userName\" ; Get ( UserName ) ; JSONString] ;\n      [\"dbModel\"  ; $data           ; JSONString]\n    )\n  ]\n  \nEnd If\n\n\n# — Error handling\nSet Variable [ $errorNum ; Value: Get ( LastError ) ]\nIf [ $errorNum ≠ 0 and $errorNum ≠ 401 ]\n  Set Variable [ $error ; Value: ErrorText ( $errorNum ) ]\nEnd If\n\n\n# — Return result to the Web Viewer callback\nPerform JavaScript in Web Viewer [\n  Object Name:   $webViewer ;\n  Function Name: $callbackName ;\n  Parameters:    $promiseID ; $responseJSON ; $error\n]\n\x60\x60\x60\n\n### Plain text example of the filemaker script JS * performSearch\n\x60\x60\x60\n# Purpose:   sync process to manage FileMaker backend calls\n# Context:   universal\n# Change Log: @history 2024.Nov.14 marcus@claritybusinesssolutions.ca – created\n\nSet Error Capture [ On ]\n\nIf [ IsEmpty ( Get ( ScriptParameter ) ) ]\n    # — EXAMPLES\n          # — UPDATE PARAMS (for testing in absence of ScriptParameter)\n            \x7b\"action\": \"update\",\n              \"version\": \"vLatest\",\n              \"layout\": \"devTasks\",\n              \"action\": \"update\",\n              \"recordId\": \"9\",\n              \"fieldData\": \x7b\"f_completed\": 1\n                ...\n              \x7d\n            \x7d\n\n          # — READ PARAMS (example)\n            \x7b\"action\": \"read\",\n              \"version\": \"vLatest\",\n              \"layout\": \"devTasks\",\n              \"action\": \"read\",\n              \"query\": [\n                \x7b\"f_active\": 1\x7d\n              ]\n            \x7d\n          \n          # — CREATE PARAMS (commented out)\n            \x7b\"action\": \"ceate\",\n              \"version\": \"vLatest\",\n              \"layouts\": \"devTasks\",\n              \"action\": \"create\",\n              \"fieldData\": [\n                \x7b\"f_completed\": 1\x7d,\n                \x7b\"task\": \"pick up pills\"\x7d\n              ]\n            \x7d\n          # — DELETE PARAMS\n            \x7b\"action\": \"delete\",\n              \"version\": \"vLatest\",\n              \"layouts\": \"devTasks\",\n              \"recordId\": \"9\"\n            \x7d\n          # — RETURN CONTEXT PARAMS\n            \x7b\"action\": \"returnContext\"\n            \x7d\nElse\n  \n  Set Variable [ $payload ; Value: Get ( ScriptParameter ) ]\n  \nEnd If\n\n\n# — Locate the Web Viewer on the current layout\nSet Variable [ $webViewer ; Value:\n  While (\n    [ input     = LayoutObjectNames ( Get ( FileName ) ; Get ( LayoutName ) ) ;\n      N         = ValueCount ( input ) ;\n      theResult = \"\" ;\n      X         = 1\n    ] ;\n    X ≤ N ;\n    [\n      thisResult = GetValue ( input ; X ) ;\n      theResult  = If ( PatternCount ( thisResult ; \"WV\" ) ; List ( theResult ; thisResult ) ; theResult ) ;\n      X = X + 1\n    ] ;\n    theResult\n  )\n]\n\n\n# — Dispatch by action\nSet Variable [ $action ; Value: JSONGetElement ( $payload ; \"action\" ) ]\nSet Variable [ $layout ; Value: JSONGetElement ( $payload ; \"layout\" ) ]\n\nIf [ $action = \"read\" ]\n  \n  Set Variable [ $query ; Value: JSONGetElement ( $payload ; \"query\" ) ]\n  Set Variable [ $data  ; Value:\n    JSONSetElement ( \"\" \n        ;[ \"action\" ;JSONGetElement($_payload;\"action\"); JSONString ] //read, metaData, create, update, delete, and duplicate\n        ;[ \"version\" ;\"vLatest\"; JSONString ]\n        ;[ \"layouts\" ;$layout; JSONString ]\n        ;[ \"query\" ; $query ; JSONArray ]\n        ;[ \"dateformats\" ; 1 ; JSONString ]\n        ;[ \"limit\" ; 1000 ; JSONString ]\n    )\n  ]\n  Execute FileMaker Data API [ Select ; Target: $responseJSON ; $data ]\n  \nElse If [ $action = \"update\" ]\n  \n  Set Variable [ $recordId  ; Value: JSONGetElement ( $payload ; \"recordId\"  ) ]\n  Set Variable [ $fieldData ; Value: JSONGetElement ( $payload ; \"fieldData\" ) ]\n  Set Variable [ $data      ; Value:\n    JSONSetElement ( \"\" \n        ;[ \"action\" ;JSONGetElement($_payload;\"action\"); JSONString ] //read, metaData, create, update, delete, and duplicate\n        ;[ \"version\" ;\"vLatest\"; JSONString ]\n        ;[ \"layouts\" ;$layout; JSONString ]\n        ;[ \"recordId\" ;$recordID; JSONString ]\n        ;[ \"fieldData\" ; $fieldData ; JSONObject ]\n    )\n  ]\n  Execute FileMaker Data API [ Select ; Target: $responseJSON ; $data ]\n  \nElse If [ $action = \"create\" ]\n  \n  Set Variable [ $fieldData ; Value: JSONGetElement ( $payload ; \"fieldData\" ) ]\n  Set Variable [ $data      ; Value:\n    JSONSetElement ( \"\" \n        ;[ \"action\" ;JSONGetElement($_payload;\"action\"); JSONString ] //read, metaData, create, update, delete, and duplicate\n        ;[ \"version\" ;\"vLatest\"; JSONString ]\n        ;[ \"layouts\" ;$layout; JSONString ]\n        ;[ \"fieldData\" ; $fieldData ; JSONObject ]\n    )\n  ]\n  Execute FileMaker Data API [ Select ; Target: $responseJSON ; $data ]\n  \nElse If [ $action = \"returnContext\" ]\n  \n  # Gather context info via ExecuteSQL\n  Set Variable [ $userID    ; Value: /* ExecuteSQL(\"SELECT ...\") */ ]\n  Set Variable [ $teamIDs   ; Value: /* JSONMakeArray( ExecuteSQL(\"SELECT ...\") ) */ ]\n  Set Variable [ $responseJSON ; Value:\n    JSONSetElement ( \"\" \n        ;[ \"action\" ;JSONGetElement($_payload;\"action\"); JSONString ] //read, metaData, create, update, delete, and duplicate\n        ;[ \"version\" ;\"vLatest\"; JSONString ]\n        ;[ \"layouts\" ;$layout; JSONString ]\n        ;[ \"recordId\" ; $recordId ; JSONString ]\n    )\n  ]\n  \nEnd If\n\n\n# — Return combined payload + response\nExit Script [ Text Result:\n  JSONSetElement (\n    $payload ;\n    [\"responseJSON\" ; $responseJSON ; JSONObject]\n  )\n]\n\x60\x60\x60\n\n### Plain text example of the filemaker script JS * returnResult\n\x60\x60\x60\n# Purpose:   filemaker sync process callback\n# Context:   universal\n# Change Log: @history 2024.Nov.14 marcus@claritybusinesssolutions.ca – created\n\nSet Error Capture [ On ]\n\nIf [ IsEmpty ( Get ( ScriptParameter ) ) ]\n    Set Variable [ $payload ; Value: JSONGetElement ( Get ( ScriptResult ) ; \"\" ) ]\nElse\n    Set Variable [ $payload ; Value: JSONGetElement ( Get ( ScriptParameter ) ; \"\" ) ]\nEnd If\n\nSet Variable [ $callBackName     ; Value: JSONGetElement ( Get ( ScriptResult ) ; \"callbackName\" ) ]\nSet Variable [ $callBackID       ; Value: JSONGetElement ( $payload ; \"callbackID\" ) ]\nSet Variable [ $callBackFunction ; Value: JSONGetElement ( $payload ; \"callbackFunction\" ) ]\nSet Variable [ $responseJSON     ; Value: JSONGetElement ( Get ( ScriptResult ) ; \"responseJSON\" ) ]\n\nSet Variable [ $data ; Value:\n  JSONSetElement (\n    \"\" ;\n    [\"callbackId\"       ; $callBackID       ; JSONString] ;\n    [\"callbackFunction\" ; $callBackFunction ; JSONString] ;\n    [\"response\"         ; JSONGetElement ( $responseJSON ; \"response\" ) ; JSONObject]\n  )\n]\n\nSet Variable [ $webViewer ; Value:\n  While (\n    [ input     = LayoutObjectNames ( Get ( FileName ) ; Get ( LayoutName ) ) ;\n      N         = ValueCount ( input ) ;\n      theResult = \"\" ;\n      X         = 1\n    ] ;\n    X ≤ N ;\n    [\n      thisResult = GetValue ( input ; X ) ;\n      test       = PatternCount ( thisResult ; \"WV\" ) ;\n      theResult  = If ( test ; List ( theResult ; thisResult ) ; theResult ) ;\n      X          = X + 1\n    ] ;\n    theResult\n  )\n]\n\nPerform JavaScript in Web Viewer [ \n  Object Name:   $webViewer ; \n  Function Name: $callBackName ; \n  Parameters:    $data \n]\n\x60\x60\x60\n\n### Plain text example of the filemaker script UploadToHTML\n\x60\x60\x60\nSet Variable [ $params     ; Value: Get ( ScriptParameter ) ]\nSet Variable [ $path       ; Value: JSONGetElement ( $params ; \"thePath\" ) ]\nSet Variable [ $widgetName ; Value: JSONGetElement ( $params ; \"widgetName\" ) ]\n\nIf [ IsEmpty ( $path ) ]\n  Exit Script [ Text Result: \"\" ]\nEnd If\n\nIf [ Get ( SystemPlatform ) = -2 ]\n  Set Variable [ $Format ; Value: WinPath ]\nElse\n  Set Variable [ $Format ; Value: PosixPath ]\nEnd If\n\nSet Variable [ $path ; Value: ConvertToFileMakerPath ( $path ; $Format ) ]\n\nNew Window [ Style: Document ; Using layout: \"HTML\" (HTML) ]\n\nEnter Find Mode [ Pause: Off ]\nSet Field [ HTML::Name ; \"==\" & $widgetName ]\nPerform Find []\n\nIf [ Get ( FoundCount ) = 0 ]\n  New Record/Request\n  Set Field [ HTML::Name ; $widgetName ]\n  Set Variable [ $message ; Value: $widgetName & \" has been added.\" ]\nElse\n  Set Variable [ $message ; Value: $widgetName & \" has been updated.\" ]\nEnd If\n\nOpen Data File [ $path ; Target: $fileId ]\nRead from Data File [ File ID: $fileId ; Target: HTML::HTML ; Read as: UTF‑8 ]\nClose Data File [ File ID: $fileId ]\n\nCommit Records/Requests [ With dialog: On ]\nClose Window [ Current Window ]\n\nShow Custom Dialog [ \"New version uploaded\" ; $message ]\n\n### Additional Information\n\nWidgets do **not** typically include testing, but you may include it if you feel it\nis necessary with permission. Setting up sample data so the widget can be tested in a browser is appreciated.\nSimply trap for the absense of the FileMaker object to utilize sample data.\n\n## IMPORTANT\nThe repo uses common JS file extensions. If you are using React or Next.js you must\nconvert the files to .jsx or .tsx respectively. You must also update the package.json\nfile to include the necessary dependencies and scripts for React or Next.js.\n\n## TASKS\n1) Complete the set up by updating \x27widget.config.cjs\x27\n\x60\x60\x60javascript\nmodule.exports = widgetName: \"\x7bprojectName\x7d\" || \"jsDev\",\n  server: \"\x7bfileMakerPath\x7d\" || \"$\",\n  file: \"\x7bfileName\x7d\" || \"jsDev\",\n  uploadScript: \"\x7bscriptName\x7d\" || \"UploadToHTML\"\n\x60\x60\x60\n\n2) Then consider the user\x27s intended purpose for the widget. If any aspect of its development remains unclear\nyou should ask the user for clarification. Document the steps and stages of development in the\n/docs/development_tasks.md file. This file should include:\n2.1. A description of the widget\x27s intended purpose.\n2.2. libraries and frameworks to install including FMGofer\n2.3. Styles to implement referencing url/path provided by the user and instructions to create CSS files based on those image/examples\n2.4. State management to implement (if any)\n2.5. Services to create (if any)\n2.6. Components to create\n2.7. Pages to create, (if any)\n2.8. Any other relevant information\n\n3) You should then ask the user to paste \x27GetTableDDL ( JSONMakeArray ( TableNames ( Get(FileName) ) ; \"\" ; JSONString ) ; \"\" )\x27 into their\ndata view and provide you with the result. This will be used to create the widget\x27s data model. The result should be placed in /docs/data_model.md\nThis data model can then be used with the FileMakerService to get the data from FileMaker.\n\nWith the user\x27s permission you may proceed to develop the widget\x27s intended features and functionality\n\nWhen you are finished you should: \n1) remove unused example files and folders\n2) run the project using \x27npm start\x27 and ensure everything works as expected.\n3) open jsDev.fmp12 by running in terminal open and then the path to the file\n4) provide the user with a summary of the development process and any\nadditional steps they need to take to complete the widget.\n\n## CONSTRAINTS\nFollow the directions provided in development_guidelines.md. If the file does not exist then use the following:\n1. You may use third-party libraries under the following conditions.\n   - You must not use any third-party libraries or frameworks without user consent.\n   - You must not use any third-party libraries or frameworks that are not compatible with FileMaker.\n   - You must not use any third-party libraries or frameworks that are not compatible with the user\x27s intended purpose for the widget.\n   - You may not use libraries if one already exists that completes the same functionality.\n2. You must not use any deprecated or obsolete JavaScript features.\n3. You must not use any non-standard JavaScript features or APIs.\n4. You must not use any non-standard HTML or CSS features or APIs.\n    - CSS must remain grouped and organized in a single file.\n    - CSS must be as DRY as possible\n    - CSS should comply with the example provided. If none is provided then implement a modern elegent consistent style\n5. You must not use any non-standard FileMaker features or APIs.\n")
]
/-- Shared resolution of the project name: default to the basename of the
current working directory when the argument is empty. -/
def resolvedProjectName (fs : FS) (a : PromptArgs) : String :=
  if a.projectName = "" then basename fs.cwd else a.projectName

/-- Tech-stack name list: iterate the input codes in order, appending the
catalog name for 1, 2 and 3 and skipping every other code
(`widget_setup_server.py` lines 255-263, `prompt_tool.py` lines 69-77). -/
def techStackNames (techStack : List Int) : List String :=
  techStack.foldl (fun acc tech =>
    if tech = 1 then acc ++ ["CommonJS"]
    else if tech = 2 then acc ++ ["React"]
    else if tech = 3 then acc ++ ["Next.js"]
    else acc) []

/-- `techStack` default of `widget_setup_server.py` (line 249): `None`
becomes the empty list. -/
def serverTechStackDefault (t : Option (List Int)) : List Int :=
  t.getD []

/-- `techStack` default of `prompt_tool.py` (line 63): `None` becomes `[2]`. -/
def toolTechStackDefault (t : Option (List Int)) : List Int :=
  t.getD [2]

/-- `fileName` placeholder of `widget_setup_server.py` (line 266). -/
def serverFileNameDefault (f : String) : String :=
  if f = "" then "(default)" else f

/-- `fileName` placeholder of `prompt_tool.py` (line 80). -/
def toolFileNameDefault (f : String) : String :=
  if f = "" then "jsDev.fmp12" else f

/-- `scriptName` default, identical in both variants. -/
def scriptNameDefault (s : String) : String :=
  if s = "" then "JS * fetch" else s

/-- `fileMakerPath` default, identical in both variants. -/
def fileMakerPathDefault (p : String) : String :=
  if p = "" then "(use repo default)" else p

/-- TypeScript status display token. -/
def tsStatusOf (useTypeScript : Bool) : String :=
  if useTypeScript then "enabled" else "disabled"

/-- Asset Encoder for a single style path: an existing readable file is
replaced by its base64-encoded content wrapped in the fixed delimiters;
everything else — and any read error — passes through unchanged. -/
def processStyle (fs : FS) (stylePath : String) : String :=
  if isfile fs stylePath then
    match readContent fs stylePath with
    | some content => "<<" ++ base64Encode (bytesOfString content) ++ ">>"
    | none => stylePath
  else stylePath

/-- Asset Encoder over the style-path list, mirroring the source loop that
appends each processed entry in order. -/
def processStyles (fs : FS) (stylePaths : List String) : List String :=
  stylePaths.foldl (fun acc p => acc ++ [processStyle fs p]) []

/-- The resolved field set of `widget_setup_server.py`'s `get_prompt`. -/
def resolveServer (fs : FS) (a : PromptArgs) : Resolved :=
  { projectName := resolvedProjectName fs a
    widgetIntention := a.widgetIntention
    fileName := serverFileNameDefault a.fileName
    fileMakerPath := fileMakerPathDefault a.fileMakerPath
    scriptName := scriptNameDefault a.scriptName
    stateLibrary := a.stateLibrary
    tsStatus := tsStatusOf a.useTypeScript
    techNames := techStackNames (serverTechStackDefault a.techStack)
    processedStyles := processStyles fs (a.stylePaths.getD []) }

/-- The resolved field set of `prompt_tool.py`'s `get_prompt`. -/
def resolveTool (fs : FS) (a : PromptArgs) : Resolved :=
  { projectName := resolvedProjectName fs a
    widgetIntention := a.widgetIntention
    fileName := toolFileNameDefault a.fileName
    fileMakerPath := fileMakerPathDefault a.fileMakerPath
    scriptName := scriptNameDefault a.scriptName
    stateLibrary := a.stateLibrary
    tsStatus := tsStatusOf a.useTypeScript
    techNames := techStackNames (toolTechStackDefault a.techStack)
    processedStyles := processStyles fs (a.stylePaths.getD []) }

/-- `DEFAULT_WORKSPACE = os.path.expanduser("~/javascript")`; the home
directory is part of the modelled state. -/
def DEFAULT_WORKSPACE (fs : FS) : String :=
  joinPath fs.home "javascript"

/-- Model message of a raised `os.makedirs` error. -/
def mkdirFailMsg : String := "makedirs failed"

/-- Model message of a raised file-write error. -/
def writeFailMsg : String := "write failed"

/-- Scaffold Writer target directory: the current working directory when
its basename equals the project name, else `DEFAULT_WORKSPACE/<name>`. -/
def projectDirFor (fs : FS) (projectName : String) : String :=
  if projectName = basename fs.cwd then fs.cwd
  else joinPath (DEFAULT_WORKSPACE fs) projectName

/-- The artifact path `<project_dir>/coding_prompts/llm_prompt.md`. -/
def promptFilePathFor (fs : FS) (projectName : String) : String :=
  joinPath (joinPath (projectDirFor fs projectName) "coding_prompts") "llm_prompt.md"

/-- The fixed header prepended to the prompt when it is written to disk:
the file receives `f"# LLM Prompt\n{prompt}"`. -/
def promptFileHeader : String := "# LLM Prompt\n"

/-- The error message carried by the structured error value when the
scaffold write fails (the model message of whichever step raised first). -/
def saveFailMsg (fs : FS) : String :=
  if fs.mkdirFails then "Failed to save prompt: " ++ mkdirFailMsg
  else "Failed to save prompt: " ++ writeFailMsg

/-- Scaffold Writer, identical in both sources
(`widget_setup_server.py` lines 828-852, `prompt_tool.py` lines 846-870):
determine the target directory, ensure `coding_prompts` exists, write the
header-prefixed prompt; any filesystem error is caught and reported as a
structured error value that still carries the composed prompt. -/
def scaffoldWrite (fs : FS) (projectName prompt : String) : FS × PromptResult :=
  let path := promptFilePathFor fs projectName
  if fs.mkdirFails then
    (fs, PromptResult.errorWithPrompt ("Failed to save prompt: " ++ mkdirFailMsg) prompt)
  else
    let fs1 := mkdirFS fs (dirname path)
    if fs1.writeFails then
      (fs1, PromptResult.errorWithPrompt ("Failed to save prompt: " ++ writeFailMsg) prompt)
    else
      (writeFileFS fs1 path (promptFileHeader ++ prompt),
       PromptResult.ok ("Prompt generated and saved to " ++ path) prompt)

namespace WidgetSetupServer

/-- `get_prompt` of `widget_setup_server.py` (lines 151-852): resolve the
project name, validate the widget intention, resolve defaults, encode the
style assets, evaluate the prompt f-string (which raises `ValueError` at
its first invalid replacement field — the template's JSON examples contain
unescaped braces and the composition happens before the `try` block), and
on a composed prompt run the Scaffold Writer. -/
def get_prompt (fs : FS) (a : PromptArgs) : FS × PromptResult :=
  if a.widgetIntention = "" then
    (fs, PromptResult.error "Widget intention is required")
  else
    match evalTemplate serverTemplateSegs (resolveServer fs a) with
    | Except.error e => (fs, PromptResult.raised e)
    | Except.ok prompt => scaffoldWrite fs (resolvedProjectName fs a) prompt

end WidgetSetupServer

namespace PromptTool

/-- `get_prompt` of `prompt_tool.py` (lines 19-870).  Its template escapes
every literal brace by doubling, so the composition always succeeds and
the `Except.error` branch is unreachable. -/
def get_prompt (fs : FS) (a : PromptArgs) : FS × PromptResult :=
  if a.widgetIntention = "" then
    (fs, PromptResult.error "Widget intention is required")
  else
    match evalTemplate toolTemplateSegs (resolveTool fs a) with
    | Except.error e => (fs, PromptResult.raised e)
    | Except.ok prompt => scaffoldWrite fs (resolvedProjectName fs a) prompt

end PromptTool

/-- The prompt that `prompt_tool.py` composes for a given state and
arguments (the template evaluation never fails there). -/
def toolComposedPrompt (fs : FS) (a : PromptArgs) : String :=
  (evalTemplate toolTemplateSegs (resolveTool fs a)).toOption.getD ""

/-- Outcomes of the two subprocess invocations of `initialize_repo`:
whether each exits zero, and its captured error stream otherwise. -/
structure Env where
  cloneOk : Bool
  cloneErr : String
  npmOk : Bool
  npmErr : String
deriving DecidableEq

/-- Python `str` of a list of strings, as it appears in the
`CalledProcessError` message `f"Command failed: {e.cmd}. ..."`. -/
def pyListRepr (xs : List String) : String :=
  "[" ++ String.intercalate ", " (xs.map (fun s => "\x27" ++ s ++ "\x27")) ++ "]"

/-- The fixed template repository URL cloned by `initialize_repo`. -/
def cloneRepoUrl : String := "https://github.com/Nuosis/js-ai-dev-environment.git"

/-- The git clone command line. -/
def gitCloneCmd (targetDir : String) : List String :=
  ["git", "clone", cloneRepoUrl, basename targetDir]

/-- The fixed relative path of the service stub:
`<target>/src/services/FileMakerService.js`. -/
def fmServicePathFor (targetDir : String) : String :=
  joinPath (joinPath (joinPath targetDir "src") "services") "FileMakerService.js"

/-- The stub-creation step of `initialize_repo`
(`widget_setup_server.py` lines 84-125): ensure the parent directories
exist, then write the fixed stub body only when no file exists at the
fixed path.  The second component is the raised error, if any. -/
def createStubStep (fs : FS) (targetDir : String) : FS × Option String :=
  if fs.mkdirFails then (fs, some mkdirFailMsg)
  else
    let fs1 := mkdirFS fs (dirname (fmServicePathFor targetDir))
    if pathExists fs1 (fmServicePathFor targetDir) then (fs1, none)
    else if fs1.writeFails then (fs1, some writeFailMsg)
    else (writeFileFS fs1 (fmServicePathFor targetDir) fmServiceStubBody, none)

/-- The outcome of an `initialize_repo` call. -/
inductive InitResult where
  | ok (message : String) (projectPath : String)
  | error (message : String)
deriving DecidableEq

/-- The `project_path` field of the returned dictionary, when present. -/
def InitResult.projectPath? : InitResult → Option String
  | .ok _ p => some p
  | .error _ => none

namespace WidgetSetupServer

/-- `initialize_repo` of `widget_setup_server.py` (lines 12-148): resolve
the project name, validate, refuse a target that already contains `.git`,
then clone from the parent directory, install, create the stub and the
`coding_prompts` directory, restoring the working directory on every exit
path (the `except` handlers re-`chdir` before returning their error). -/
def initialize_repo (env : Env) (fs : FS) (projectName projectDir : String) :
    FS × InitResult :=
  let current_dir := basename fs.cwd
  let projectName := if projectName = "" then current_dir else projectName
  if projectName = "" then
    (fs, InitResult.error "Project name is required and could not be determined automatically")
  else if projectDir = "" then
    (fs, InitResult.error "Project directory (fully qualified path) is required")
  else if pathExists fs (joinPath projectDir ".git") then
    (fs, InitResult.error ("Directory \x27" ++ projectDir ++
      "\x27 is already a git repository. Cannot initialize a new repository here."))
  else
    let originalDir := fs.cwd
    let fs1 := chdirFS fs (dirname projectDir)
    if !env.cloneOk then
      (chdirFS fs1 originalDir,
       InitResult.error ("Command failed: " ++ pyListRepr (gitCloneCmd projectDir) ++
         ". Error: " ++ env.cloneErr))
    else
      let fs2 : FS := { fs1 with dirs := projectDir :: fs1.dirs }
      let fs3 := chdirFS fs2 projectDir
      if !env.npmOk then
        (chdirFS fs3 originalDir,
         InitResult.error ("Command failed: " ++ pyListRepr ["npm", "install"] ++
           ". Error: " ++ env.npmErr))
      else
        match createStubStep fs3 projectDir with
        | (fs4, some e) =>
          (chdirFS fs4 originalDir,
           InitResult.error ("Failed to initialize widget project: " ++ e))
        | (fs4, none) =>
          if fs4.mkdirFails then
            (chdirFS fs4 originalDir,
             InitResult.error ("Failed to initialize widget project: " ++ mkdirFailMsg))
          else
            let fs5 := mkdirFS fs4 (joinPath projectDir "coding_prompts")
            (chdirFS fs5 originalDir,
             InitResult.ok ("Widget project \x27" ++ projectName ++
               "\x27 initialized successfully at " ++ projectDir) projectDir)

end WidgetSetupServer

/-- A healthy environment: both subprocesses succeed. -/
def envDemo : Env :=
  { cloneOk := true, cloneErr := "", npmOk := true, npmErr := "" }

/-- A state whose working directory basename is `demo`, with no faults. -/
def fsDemo : FS :=
  { files := [], dirs := [], cwd := "/Users/dev/demo", home := "/Users/dev",
    mkdirFails := false, writeFails := false }

/-- Minimal valid `get_prompt` arguments: only the intention is supplied. -/
def argsMinimal : PromptArgs :=
  { widgetIntention := "x" }

/-- `get_prompt` arguments with an empty widget intention. -/
def argsNoIntent : PromptArgs :=
  { widgetIntention := "" }

/-- A state whose target directory `/projects/t` already holds `.git`. -/
def fsGit : FS :=
  { files := [], dirs := ["/projects/t/.git"], cwd := "/Users/dev/demo",
    home := "/Users/dev", mkdirFails := false, writeFails := false }

/-- A state in which every `os.makedirs` call raises. -/
def fsMkdirFail : FS :=
  { files := [], dirs := [], cwd := "/Users/dev/demo", home := "/Users/dev",
    mkdirFails := true, writeFails := false }

/-- A state holding one readable style file (content `hi`). -/
def fsStyles : FS :=
  { files := [("/styles/a.css", some "hi")], dirs := [], cwd := "/Users/dev/demo",
    home := "/Users/dev", mkdirFails := false, writeFails := false }

/-- A style-path list with one existing file and one non-existent path. -/
def stylesInput : List String :=
  ["/styles/a.css", "/styles/missing.png"]

/-- A state in which the service stub already exists with known content. -/
def fsStub : FS :=
  { files := [(fmServicePathFor "/projects/t", some "old stub")], dirs := [],
    cwd := "/Users/dev/demo", home := "/Users/dev",
    mkdirFails := false, writeFails := false }

/-- The fixed tech-stack catalog as the spec words it: codes 1, 2 and 3
name a stack, every other code is dropped. -/
def catalogNameOf (tech : Int) : Option String :=
  if tech = 1 then some "CommonJS"
  else if tech = 2 then some "React"
  else if tech = 3 then some "Next.js"
  else none

/-- On a successful `get_prompt` outcome, the file at the artifact path
holds the returned prompt prefixed with the fixed header; trivial on every
other outcome. -/
def writtenWithHeaderProp (fs : FS) (a : PromptArgs) (out : FS × PromptResult) : Prop :=
  match out.2 with
  | PromptResult.ok _ p =>
      lookupFile out.1 (promptFilePathFor fs (resolvedProjectName fs a)) =
        some (some (promptFileHeader ++ p))
  | _ => True

/-! ## Helper lemmas -/

theorem foldl_push_eq_map {α β : Type} (f : α → β) (xs : List α) :
    ∀ acc : List β, xs.foldl (fun a x => a ++ [f x]) acc = acc ++ xs.map f := by
  induction xs with
  | nil => intro acc; simp
  | cons x xs ih => intro acc; simp [ih]

theorem processStyles_eq_map (fs : FS) (ps : List String) :
    processStyles fs ps = ps.map (processStyle fs) := by
  simpa [processStyles] using foldl_push_eq_map (processStyle fs) ps []

theorem getD_map_of_lt {α β : Type} (f : α → β) (d1 : α) (d2 : β) :
    ∀ (xs : List α) (i : Nat), i < xs.length → (xs.map f).getD i d2 = f (xs.getD i d1) := by
  intro xs
  induction xs with
  | nil => intro i h; simp at h
  | cons x xs ih =>
    intro i h
    cases i with
    | zero => simp
    | succ n =>
      simp only [List.map_cons, List.getD_cons_succ]
      exact ih n (by simpa using h)

theorem techStackNames_eq_filterMap (ts : List Int) :
    techStackNames ts = ts.filterMap catalogNameOf := by
  have h : ∀ (l : List Int) (acc : List String),
      l.foldl (fun acc tech =>
        if tech = 1 then acc ++ ["CommonJS"]
        else if tech = 2 then acc ++ ["React"]
        else if tech = 3 then acc ++ ["Next.js"]
        else acc) acc = acc ++ l.filterMap catalogNameOf := by
    intro l
    induction l with
    | nil => intro acc; simp
    | cons t l ih =>
      intro acc
      by_cases h1 : t = 1
      · simp [h1, ih, catalogNameOf]
      · by_cases h2 : t = 2
        · simp [h1, h2, ih, catalogNameOf]
        · by_cases h3 : t = 3
          · simp [h1, h2, h3, ih, catalogNameOf]
          · simp [h1, h2, h3, ih, catalogNameOf]
  simpa [techStackNames] using h ts []

theorem evalSegsFrom_ok_of_noBad (r : Resolved) (segs : List FSeg) :
    segs.all (fun s => !s.isBad) = true →
      ∀ acc, ∃ out, evalSegsFrom r acc segs = Except.ok out := by
  induction segs with
  | nil => intro _ acc; exact ⟨acc, rfl⟩
  | cons s rest ih =>
    intro hnb acc
    rw [List.all_cons, Bool.and_eq_true] at hnb
    cases s with
    | lit t => exact ih hnb.2 (acc ++ t)
    | hole h => exact ih hnb.2 (acc ++ evalHole r h)
    | bad raw => simp [FSeg.isBad] at hnb

theorem toolTemplateSegs_noBad :
    toolTemplateSegs.all (fun s => !s.isBad) = true := by
  rfl

theorem tool_compose_ok (fs : FS) (a : PromptArgs) :
    evalTemplate toolTemplateSegs (resolveTool fs a) =
      Except.ok (toolComposedPrompt fs a) := by
  obtain ⟨out, h⟩ :=
    evalSegsFrom_ok_of_noBad (resolveTool fs a) toolTemplateSegs toolTemplateSegs_noBad ""
  have h2 : evalTemplate toolTemplateSegs (resolveTool fs a) = Except.ok out := h
  rw [h2]
  simp [toolComposedPrompt, h2, Except.toOption]

theorem server_compose_raises (r : Resolved) :
    evalTemplate serverTemplateSegs r = Except.error valueErrorMsg := rfl

theorem lookupFile_writeFileFS_self (fs : FS) (p c : String) :
    lookupFile (writeFileFS fs p c) p = some (some c) := by
  simp [lookupFile, writeFileFS, List.lookup]

theorem scaffoldWrite_written (fs : FS) (pn prompt : String) (m p : String)
    (h : (scaffoldWrite fs pn prompt).2 = PromptResult.ok m p) :
    lookupFile (scaffoldWrite fs pn prompt).1 (promptFilePathFor fs pn) =
      some (some (promptFileHeader ++ p)) := by
  unfold scaffoldWrite at h ⊢
  by_cases hm : fs.mkdirFails
  · simp [hm] at h
  · by_cases hw : fs.writeFails
    · simp [hm, hw, mkdirFS] at h
    · simp only [hm, hw, mkdirFS, if_false, Bool.false_eq_true, if_neg] at h ⊢
      have hp : p = prompt := by
        cases h; rfl
      subst hp
      simp [hm, hw, mkdirFS, lookupFile_writeFileFS_self]

theorem tool_written_with_header (fs : FS) (a : PromptArgs) :
    writtenWithHeaderProp fs a (PromptTool.get_prompt fs a) := by
  unfold PromptTool.get_prompt
  by_cases hw : a.widgetIntention = ""
  · simp [writtenWithHeaderProp, hw]
  · rw [if_neg hw, tool_compose_ok fs a]
    unfold writtenWithHeaderProp
    split
    · rename_i m p heq
      exact scaffoldWrite_written fs (resolvedProjectName fs a) (toolComposedPrompt fs a) m p heq
    · trivial

theorem server_never_ok (fs : FS) (a : PromptArgs) :
    writtenWithHeaderProp fs a (WidgetSetupServer.get_prompt fs a) := by
  unfold WidgetSetupServer.get_prompt
  by_cases hw : a.widgetIntention = ""
  · simp [writtenWithHeaderProp, hw]
  · rw [if_neg hw, server_compose_raises]
    trivial

theorem lookupFile_mkdirFS (fs : FS) (d q : String) :
    lookupFile (mkdirFS fs d) q = lookupFile fs q := rfl

theorem mkdirFS_mkdirFails (fs : FS) (d : String) :
    (mkdirFS fs d).mkdirFails = fs.mkdirFails := rfl

theorem mkdirFS_writeFails (fs : FS) (d : String) :
    (mkdirFS fs d).writeFails = fs.writeFails := rfl

theorem writeFileFS_mkdirFails (fs : FS) (p c : String) :
    (writeFileFS fs p c).mkdirFails = fs.mkdirFails := rfl

theorem pathExists_after_write (fs : FS) (p c d : String) :
    pathExists (mkdirFS (writeFileFS fs p c) d) p = true := by
  simp [pathExists, mkdirFS, writeFileFS, lookupFile, List.lookup]

theorem pathExists_mkdirFS_mono (fs : FS) (d p : String)
    (h : pathExists fs p = true) : pathExists (mkdirFS fs d) p = true := by
  simp only [pathExists, mkdirFS, lookupFile, List.contains_cons, Bool.or_eq_true] at h ⊢
  tauto

theorem pathExists_mkdir_twice (fs : FS) (d p : String) :
    pathExists (mkdirFS (mkdirFS fs d) d) p = pathExists (mkdirFS fs d) p := by
  simp only [pathExists, mkdirFS, lookupFile, List.contains_cons]
  by_cases h : (p == d) = true <;> simp [h]

theorem stub_no_rewrite (fs : FS) (t : String)
    (hex : pathExists fs (fmServicePathFor t) = true) :
    lookupFile ((createStubStep fs t).1) (fmServicePathFor t) =
      lookupFile fs (fmServicePathFor t) := by
  unfold createStubStep
  by_cases hm : fs.mkdirFails
  · simp [hm]
  · have hex1 := pathExists_mkdirFS_mono fs (dirname (fmServicePathFor t)) (fmServicePathFor t) hex
    simp [hm, hex1, lookupFile_mkdirFS]

theorem header_append_ne (p : String) : promptFileHeader ++ p ≠ p := by
  intro h
  have hlen := congrArg String.length h
  rw [String.length_append] at hlen
  have h13 : promptFileHeader.length = 13 := rfl
  rw [h13] at hlen
  omega

/-! ## Claims -/

/-- C1: for every call to `get_prompt` (either variant) with an empty
widget intention, the operation returns the validation error and performs
no side effect: the returned state is exactly the input state, so no
directory is created and no file is written. -/
theorem c1_empty_intention_no_side_effect (fs : FS) (a : PromptArgs)
    (h : a.widgetIntention = "") :
    WidgetSetupServer.get_prompt fs a =
        (fs, PromptResult.error "Widget intention is required") ∧
      PromptTool.get_prompt fs a =
        (fs, PromptResult.error "Widget intention is required") := by
  constructor <;> simp [WidgetSetupServer.get_prompt, PromptTool.get_prompt, h]

/-- Witness for C1 at a concrete state and argument record. -/
theorem c1_witness :
    WidgetSetupServer.get_prompt fsDemo argsNoIntent =
        (fsDemo, PromptResult.error "Widget intention is required") ∧
      PromptTool.get_prompt fsDemo argsNoIntent =
        (fsDemo, PromptResult.error "Widget intention is required") :=
  c1_empty_intention_no_side_effect fsDemo argsNoIntent rfl

/-- C2 counterexample: the claim says named entries follow catalog order
`{1,2,3}`; for the input `[3, 1]` the code renders
`["Next.js", "CommonJS"]` — input order — not `["CommonJS", "Next.js"]`. -/
theorem c2_counterexample :
    techStackNames [3, 1] = ["Next.js", "CommonJS"] ∧
      techStackNames [3, 1] ≠ ["CommonJS", "Next.js"] := by
  exact ⟨rfl, by decide⟩

/-- C2 amended: the rendered list has a named entry for each input code in
the catalog `{1,2,3}` (1 to CommonJS, 2 to React, 3 to Next.js), codes
outside the catalog are silently dropped, and the entries follow the order
of the input list (not catalog order). -/
theorem c2_input_order (ts : List Int) :
    techStackNames ts = ts.filterMap catalogNameOf :=
  techStackNames_eq_filterMap ts

/-- C3: the Asset Encoder preserves the length and order of the style-path
list; an entry that is an existing readable file is replaced by its
base64-encoded content wrapped in the fixed delimiters, and every other
entry — non-existent path, directory, or read error — passes through
unchanged (the step is total, so it never fails the request). -/
theorem c3_asset_encoder (fs : FS) (ps : List String) :
    (processStyles fs ps).length = ps.length ∧
    ∀ i, i < ps.length →
      (processStyles fs ps).getD i "" =
        (if isfile fs (ps.getD i "") then
          match readContent fs (ps.getD i "") with
          | some content => "<<" ++ base64Encode (bytesOfString content) ++ ">>"
          | none => ps.getD i ""
        else ps.getD i "") := by
  rw [processStyles_eq_map]
  refine ⟨by simp, ?_⟩
  intro i hi
  rw [getD_map_of_lt (processStyle fs) "" "" ps i hi]
  rfl

/-- Witness for C3 on one existing file (content `hi`, base64 `aGk=`) and
one non-existent path. -/
theorem c3_witness :
    processStyles fsStyles stylesInput = ["<<aGk=>>", "/styles/missing.png"] ∧
    (processStyles fsStyles stylesInput).length = stylesInput.length ∧
    (processStyles fsStyles stylesInput).getD 0 "" =
      (if isfile fsStyles (stylesInput.getD 0 "") then
        match readContent fsStyles (stylesInput.getD 0 "") with
        | some content => "<<" ++ base64Encode (bytesOfString content) ++ ">>"
        | none => stylesInput.getD 0 ""
      else stylesInput.getD 0 "") :=
  ⟨by decide, (c3_asset_encoder fsStyles stylesInput).1,
    (c3_asset_encoder fsStyles stylesInput).2 0 (by decide)⟩

/-- C4: when the target directory already contains `.git`, `initialize_repo`
returns the precondition error and performs no side effect: the returned
state is exactly the input state (no clone, no install, no file or
directory created, working directory unchanged). -/
theorem c4_git_precondition_no_side_effect (env : Env) (fs : FS) (pn pd : String)
    (hname : (if pn = "" then basename fs.cwd else pn) ≠ "")
    (hdir : pd ≠ "")
    (hgit : pathExists fs (joinPath pd ".git") = true) :
    WidgetSetupServer.initialize_repo env fs pn pd =
      (fs, InitResult.error ("Directory \x27" ++ pd ++
        "\x27 is already a git repository. Cannot initialize a new repository here.")) := by
  simp only [WidgetSetupServer.initialize_repo]
  rw [if_neg hname, if_neg hdir, if_pos hgit]

/-- Witness for C4 at a concrete state holding `/projects/t/.git`. -/
theorem c4_witness :
    WidgetSetupServer.initialize_repo envDemo fsGit "demo" "/projects/t" =
      (fsGit, InitResult.error ("Directory \x27/projects/t\x27 is already a git repository. Cannot initialize a new repository here.")) :=
  c4_git_precondition_no_side_effect envDemo fsGit "demo" "/projects/t"
    (by decide) (by decide) (by decide)

/-- C5 counterexample: a concrete successful `prompt_tool.py` call for
which the file content at the artifact path is not the returned prompt
text (the file carries the fixed `# LLM Prompt` header line in front). -/
theorem c5_counterexample :
    (PromptTool.get_prompt fsDemo argsMinimal).2.isOk = true ∧
    lookupFile (PromptTool.get_prompt fsDemo argsMinimal).1
        (promptFilePathFor fsDemo (resolvedProjectName fsDemo argsMinimal)) ≠
      some (some ((PromptTool.get_prompt fsDemo argsMinimal).2.promptText.getD "")) := by
  have hrun : (PromptTool.get_prompt fsDemo argsMinimal).2 =
      PromptResult.ok ("Prompt generated and saved to " ++
          promptFilePathFor fsDemo (resolvedProjectName fsDemo argsMinimal))
        (toolComposedPrompt fsDemo argsMinimal) := rfl
  refine ⟨rfl, ?_⟩
  have hw2 : lookupFile (PromptTool.get_prompt fsDemo argsMinimal).1
      (promptFilePathFor fsDemo (resolvedProjectName fsDemo argsMinimal)) =
      some (some (promptFileHeader ++ toolComposedPrompt fsDemo argsMinimal)) := by
    have hw := tool_written_with_header fsDemo argsMinimal
    unfold writtenWithHeaderProp at hw
    rw [hrun] at hw
    exact hw
  rw [hw2]
  simp only [hrun, PromptResult.promptText, Option.getD_some, ne_eq, Option.some.injEq]
  exact header_append_ne (toolComposedPrompt fsDemo argsMinimal)

/-- C5 amended: on every `get_prompt` call that succeeds, the document
written to `<target>/coding_prompts/llm_prompt.md` is the returned prompt
text prefixed with the fixed header line `# LLM Prompt` (it is not
byte-identical to the returned text). -/
theorem c5_written_with_header (fs : FS) (a : PromptArgs) :
    writtenWithHeaderProp fs a (PromptTool.get_prompt fs a) ∧
      writtenWithHeaderProp fs a (WidgetSetupServer.get_prompt fs a) :=
  ⟨tool_written_with_header fs a, server_never_ok fs a⟩

/-- C6: whenever a filesystem error occurs during directory creation or
the file write of the scaffold step, `get_prompt` (prompt_tool variant;
the server variant never reaches this step) returns the structured error
value that still carries the full composed prompt — no exception escapes
and no work is lost. -/
theorem c6_fs_error_structured (fs : FS) (a : PromptArgs)
    (h1 : a.widgetIntention ≠ "")
    (h2 : fs.mkdirFails = true ∨ fs.writeFails = true) :
    (PromptTool.get_prompt fs a).2 =
      PromptResult.errorWithPrompt (saveFailMsg fs) (toolComposedPrompt fs a) := by
  unfold PromptTool.get_prompt
  rw [if_neg h1, tool_compose_ok fs a]
  unfold scaffoldWrite saveFailMsg
  by_cases hm : fs.mkdirFails
  · simp [hm]
  · have hw : fs.writeFails = true := by
      rcases h2 with h | h
      · exact absurd h (by simpa using hm)
      · exact h
    simp [hm, hw, mkdirFS]

/-- Witness for C6 at a concrete state whose directory creation raises. -/
theorem c6_witness :
    (PromptTool.get_prompt fsMkdirFail argsMinimal).2 =
      PromptResult.errorWithPrompt (saveFailMsg fsMkdirFail)
        (toolComposedPrompt fsMkdirFail argsMinimal) :=
  c6_fs_error_structured fsMkdirFail argsMinimal (by decide) (Or.inl rfl)

/-- C7: on every exit path of `initialize_repo` — validation error,
precondition error, clone failure, install failure, stub or directory
failure, or success — the current working directory of the returned state
equals the one at entry. -/
theorem c7_cwd_restored (env : Env) (fs : FS) (pn pd : String) :
    ((WidgetSetupServer.initialize_repo env fs pn pd).1).cwd = fs.cwd := by
  simp only [WidgetSetupServer.initialize_repo]
  repeat' split
  all_goals simp [chdirFS]

/-- C8: the stub-creation step never rewrites an existing stub file: when
a file already exists at the fixed relative path its content is unchanged
by the step, and running the step twice leaves the stub content after the
second run identical to the content after the first. -/
theorem c8_stub_idempotent (fs : FS) (t : String) :
    (pathExists fs (fmServicePathFor t) = true →
      lookupFile ((createStubStep fs t).1) (fmServicePathFor t) =
        lookupFile fs (fmServicePathFor t)) ∧
    lookupFile ((createStubStep ((createStubStep fs t).1) t).1) (fmServicePathFor t) =
      lookupFile ((createStubStep fs t).1) (fmServicePathFor t) := by
  refine ⟨stub_no_rewrite fs t, ?_⟩
  by_cases hm : fs.mkdirFails
  · simp [createStubStep, hm]
  · by_cases hex : pathExists (mkdirFS fs (dirname (fmServicePathFor t))) (fmServicePathFor t) = true
    · have h1 : (createStubStep fs t).1 = mkdirFS fs (dirname (fmServicePathFor t)) := by
        simp [createStubStep, hm, hex]
      rw [h1]
      exact stub_no_rewrite (mkdirFS fs (dirname (fmServicePathFor t))) t hex
    · by_cases hw : fs.writeFails
      · have h1 : (createStubStep fs t).1 = mkdirFS fs (dirname (fmServicePathFor t)) := by
          simp [createStubStep, hm, hex, mkdirFS_writeFails, hw]
        rw [h1]
        simp [createStubStep, mkdirFS_mkdirFails, hm, pathExists_mkdir_twice, hex,
          mkdirFS_writeFails, hw, lookupFile_mkdirFS]
      · have h1 : (createStubStep fs t).1 =
            writeFileFS (mkdirFS fs (dirname (fmServicePathFor t))) (fmServicePathFor t)
              fmServiceStubBody := by
          simp [createStubStep, hm, hex, mkdirFS_writeFails, hw]
        rw [h1]
        simp [createStubStep, writeFileFS_mkdirFails, mkdirFS_mkdirFails, hm,
          pathExists_after_write, lookupFile_mkdirFS]

/-- Witness for C8 at a concrete state whose stub file already exists. -/
theorem c8_witness :
    lookupFile ((createStubStep fsStub "/projects/t").1) (fmServicePathFor "/projects/t") =
        lookupFile fsStub (fmServicePathFor "/projects/t") ∧
      lookupFile ((createStubStep ((createStubStep fsStub "/projects/t").1) "/projects/t").1)
          (fmServicePathFor "/projects/t") =
        lookupFile ((createStubStep fsStub "/projects/t").1) (fmServicePathFor "/projects/t") :=
  ⟨(c8_stub_idempotent fsStub "/projects/t").1 (by decide),
    (c8_stub_idempotent fsStub "/projects/t").2⟩

/-- C9 (code-bug evidence): the two variants really differ in their
defaulting exactly as claimed (`techStack` omitted: `[2]` versus `[]`;
empty `fileName`: `jsDev.fmp12` versus `(default)`), but at the concrete
failing input the server variant never composes a document: its template
contains unescaped braces, so composition raises `ValueError` while the
tool variant returns the success dictionary. -/
theorem c9_variant_divergence :
    toolTechStackDefault none = [2] ∧
    serverTechStackDefault none = ([] : List Int) ∧
    toolFileNameDefault "" = "jsDev.fmp12" ∧
    serverFileNameDefault "" = "(default)" ∧
    (WidgetSetupServer.get_prompt fsDemo argsMinimal).2 =
      PromptResult.raised valueErrorMsg ∧
    (PromptTool.get_prompt fsDemo argsMinimal).2.isOk = true :=
  ⟨rfl, rfl, rfl, rfl, rfl, rfl⟩

/-- C10: two `initialize_repo` calls on the same state and target directory
that differ only in a non-empty project name produce identical filesystem
results and identical `project_path` values; the name reaches only the
human-readable success message. -/
theorem c10_name_independent (env : Env) (fs : FS) (pd n1 n2 : String)
    (h1 : n1 ≠ "") (h2 : n2 ≠ "") :
    (WidgetSetupServer.initialize_repo env fs n1 pd).1 =
        (WidgetSetupServer.initialize_repo env fs n2 pd).1 ∧
      ((WidgetSetupServer.initialize_repo env fs n1 pd).2).projectPath? =
        ((WidgetSetupServer.initialize_repo env fs n2 pd).2).projectPath? := by
  simp only [WidgetSetupServer.initialize_repo]
  rw [if_neg h1, if_neg h1, if_neg h2, if_neg h2]
  constructor
  · repeat' split
    all_goals simp_all
  · repeat' split
    all_goals simp_all [InitResult.projectPath?]

/-- Witness for C10 with two distinct non-empty names. -/
theorem c10_witness :
    (WidgetSetupServer.initialize_repo envDemo fsDemo "alpha" "/projects/t").1 =
        (WidgetSetupServer.initialize_repo envDemo fsDemo "beta" "/projects/t").1 ∧
      ((WidgetSetupServer.initialize_repo envDemo fsDemo "alpha" "/projects/t").2).projectPath? =
        ((WidgetSetupServer.initialize_repo envDemo fsDemo "beta" "/projects/t").2).projectPath? :=
  c10_name_independent envDemo fsDemo "/projects/t" "alpha" "beta" (by decide) (by decide)

end WidgetSetup
